import Mathlib

/-!
Shallow embedding of the AIWC match supervisor
(`src/test_world-develop/controllers/supervisor/supervisor.py`).

Strings from the wire are modelled as `List Char`; the Python string
operations used by the source (`startswith`, `endswith`, `find`, slicing,
`split`) are re-implemented below with Python's semantics.  Times and the
tunable duration constants live in `Int` (milliseconds, Python integers);
geometry lives in `Rat` (the source uses floats; the embedding idealises
them as exact rationals).  `math.sqrt` is abstracted as an arbitrary
function parameter `sq : Rat -> Rat`, which is enough for every claim
below (none depends on the numeric value of a square root).

The modules `constants.py` and `player.py` of the repository are not part
of the sources provided; the role indices (TEAM_RED = 0, TEAM_BLUE = 1,
COMMENTATOR = 2, REPORTER = 3) and NUMBER_OF_ROBOTS = 5 are fixed by the
supervisor source itself (`self.ready = [False] * 4  # TEAM_RED,
TEAM_BLUE, COMMENTATOR, REPORTER`, `role > constants.TEAM_BLUE`, robot
ids 0..4 with goalkeeper 0 and attacker 4); the remaining tunables are
carried as fields of a `Consts` parameter record.
-/

namespace AIWC

/-- Python `p.startswith(q)` specialised to the uses in the source:
`startsW pat s` is true when `pat` is an initial segment of `s`. -/
def startsW : List Char → List Char → Bool
  | [], _ => true
  | _ :: _, [] => false
  | p :: ps, x :: xs => (p == x) && startsW ps xs

/-- Python `s.endswith(')')`: the last character is a closing parenthesis. -/
def endsParen (l : List Char) : Bool :=
  match l.getLast? with
  | some ch => ch == ')'
  | none => false

/-- Python `s.find(c, start)` for a single character: index of the first
occurrence at or after `start`, `-1` when there is none. -/
def pyFindChFrom (l : List Char) (c : Char) (start : ℕ) : ℤ :=
  match (l.drop start).findIdx? (fun x => x == c) with
  | some i => (start : ℤ) + i
  | none => -1

/-- Helper for substring search, scanning left to right and counting. -/
def findSubAux (sub : List Char) : List Char → ℕ → ℤ
  | [], k => if startsW sub [] then (k : ℤ) else -1
  | x :: xs, k => if startsW sub (x :: xs) then (k : ℤ) else findSubAux sub xs (k + 1)

/-- Python `s.find(sub)` for a substring, scanning from the start. -/
def pyFindStr (l sub : List Char) : ℤ :=
  findSubAux sub l 0

/-- Python slice `l[a:b]` with Python's negative-index and clamping rules. -/
def pySlice (l : List Char) (a b : ℤ) : List Char :=
  let n : ℤ := l.length
  let na := if a < 0 then max 0 (a + n) else min a n
  let nb := if b < 0 then max 0 (b + n) else min b n
  (l.take nb.toNat).drop na.toNat

/-- Python list assignment `l[i] = v` on a list of booleans, with Python's
negative-index semantics (`l[-1]` writes the last element).  An index out
of range would raise in Python; the model leaves the list unchanged there
(that case is never reached: roles are always in `-1..3` on a length-4
list). -/
def pyListSet (l : List Bool) (i : ℤ) (v : Bool) : List Bool :=
  let n : ℤ := l.length
  let j := if i < 0 then i + n else i
  if 0 ≤ j ∧ j < n then l.set j.toNat v else l

/-- The RPC marker token `aiwc.` (the source splits inbound data on it). -/
def marker : List Char := ['a', 'i', 'w', 'c', '.']

/-- Python `message.split('aiwc.')`, accumulator style: `splitMk l acc`
splits `l` on non-overlapping occurrences of the marker, scanning left to
right, `acc` being the piece currently being assembled. -/
def splitMk : List Char → List Char → List (List Char)
  | [], acc => [acc]
  | 'a' :: 'i' :: 'w' :: 'c' :: '.' :: rest, acc => acc :: splitMk rest []
  | ch :: cs, acc => splitMk cs (acc ++ [ch])

/-- `hasMk l` is true when the marker occurs somewhere inside `l`. -/
def hasMk : List Char → Bool
  | [] => false
  | ch :: cs => startsW marker (ch :: cs) || hasMk cs

/-! ## Match-state data types

`player.py` (the `Game` class holding the state and reset-reason codes)
is not among the provided sources.  Modelled from the spec: the five
phases (glossary: KICKOFF/DEFAULT/GOALKICK/CORNERKICK/PENALTYKICK) and
the frame `reset_reason` vocabulary of sections 4.3 and 4.5, with
`constants.SCORE_RED_TEAM` identified with the code "scored by my team"
of team red's canonical frame and `constants.SCORE_BLUE_TEAM` with
"scored by opponent" (the red frame is sent unremapped, so the constants
must coincide with the codes red clients read). -/

inductive GS where
  | kickoff
  | stateDefault
  | goalkick
  | cornerkick
  | penaltykick
deriving DecidableEq

inductive RR where
  | rrNone
  | gameStart
  | scoreMyteam
  | scoreOpponent
  | gameEnd
  | deadlock
  | goalkick
  | cornerkick
  | penaltykick
  | halftime
  | episodeEnd
deriving DecidableEq

/-- `constants.SCORE_RED_TEAM` (see the modelling note above). -/
def SCORE_RED_TEAM : RR := RR.scoreMyteam

/-- `constants.SCORE_BLUE_TEAM` (see the modelling note above). -/
def SCORE_BLUE_TEAM : RR := RR.scoreOpponent

/-- Per-robot referee bookkeeping, the dictionary
`self.robot[team][id]` minus the scene-graph node handle. -/
structure RobotSt where
  active : Bool
  touch : Bool
  fallTime : ℤ
  sentoutTime : ℤ
  niopaTime : ℤ
  ipaTime : ℤ
deriving DecidableEq

/-- A payload sent back over a socket. -/
inductive OutMsg where
  /-- the `aiwc.get_info` reply: `json.dumps(self.role_info[TEAM_RED])`,
  recorded here by the team index it was built for and the
  authentication key it carries. -/
  | info (team : Fin 2) (key : Option (List Char))
deriving DecidableEq

/-- Observable side effects on the simulation backend and the sockets. -/
inductive Eff where
  | send (cli : ℕ) (m : OutMsg)
  | speeds (role : ℤ) (raw : List Char)
  | resetBufA
  | resetBufB
  | teleFoul (t : Fin 2) (i : Fin 5)
  | teleField (t : Fin 2) (i : Fin 5)
  | resetFormation
  | relocBall (quadrant : ℕ)
  | stopAll
  | waitStep
  | markHalf
  | episodeCam
  /-- one `publish_current_frame` round, by the reset reason carried. -/
  | publish (reason : RR)
deriving DecidableEq

/-- The supervisor state: the referee-owned fields of `GameSupervisor`
(socket handles, camera nodes and scene wiring are outside the model;
`out` records the emitted effects and `log` the complete command
fragments that reached the dispatcher, in order). -/
structure Sup where
  keys : Fin 4 → Option (List Char)
  roleClient : ℤ → Option ℕ
  ready : List Bool
  comments : List (ℤ × List Char)
  report : Option (List Char)
  log : List (List Char)
  out : List Eff
  time : ℤ
  gameTime : ℤ
  score : Fin 2 → ℤ
  halfPassed : Bool
  finished : Bool
  resetReason : RR
  gameState : GS
  ballOwnership : Fin 2
  robots : Fin 2 → Fin 5 → RobotSt
  recentTouch : Fin 2 → Fin 5 → Bool
  ballPosition : ℚ × ℚ
  kickoffTime : ℤ
  goalkickTime : ℤ
  cornerkickTime : ℤ
  penaltykickTime : ℤ
  deadlockTime : ℤ

/-- The tunable constants of `constants.py` (the module is not among the
provided sources; every value is carried as a parameter). -/
structure Consts where
  FIELD_LENGTH : ℚ
  FIELD_WIDTH : ℚ
  GOAL_WIDTH : ℚ
  GOAL_DEPTH : ℚ
  PENALTY_AREA_DEPTH : ℚ
  PENALTY_AREA_WIDTH : ℚ
  WALL_THICKNESS : ℚ
  CORNER_LENGTH : ℚ
  KICKOFF_BORDER : ℚ
  DEADLOCK_THRESHOLD : ℚ
  ROBOT_SIZE : Fin 5 → ℚ
  FORMATION_DEFAULT : Fin 5 → ℚ × ℚ
  PERIOD_MS : ℤ
  FALL_TIME_MS : ℤ
  SENTOUT_DURATION_MS : ℤ
  IOPA_TIME_LIMIT_MS : ℤ
  GK_NIPA_TIME_LIMIT_MS : ℤ
  KICKOFF_TIME_LIMIT_MS : ℤ
  GOALKICK_TIME_LIMIT_MS : ℤ
  CORNERKICK_TIME_LIMIT_MS : ℤ
  PENALTYKICK_TIME_LIMIT_MS : ℤ
  DEADLOCK_DURATION_MS : ℤ
  PA_THRESHOLD_A : ℕ
  PA_THRESHOLD_D : ℕ
  NUM_COMMENTS : ℕ

/-! ## Command processing (`GameSupervisor.callback` and helpers) -/

/-- `get_key(rpc)`: the first double-quoted token of the command. -/
def getKey (rpc : List Char) : List Char :=
  let first := pyFindChFrom rpc '"' 0 + 1
  pySlice rpc first (pyFindChFrom rpc '"' first.toNat)

/-- `GameSupervisor.get_role`: resolve the command's key against the
registered keys of roles 0..3, returning `-1` (with an error report)
when none matches. -/
def getRoleK (keys : Fin 4 → Option (List Char)) (cmd : List Char) : ℤ :=
  let k := getKey cmd
  if keys 0 = some k then 0
  else if keys 1 = some k then 1
  else if keys 2 = some k then 2
  else if keys 3 = some k then 3
  else -1

/-- `collections.deque(maxlen=n)` append: push right, dropping from the
left when the buffer is full. -/
def pushComment (maxLen : ℕ) (l : List (ℤ × List Char)) (x : ℤ × List Char) :
    List (ℤ × List Char) :=
  let l2 := l ++ [x]
  l2.drop (l2.length - maxLen)

/-- One complete command fragment reaching the dispatcher inside
`GameSupervisor.callback` (the body of the `for command in data` loop
from the `role = self.get_role(command)` line on).  Returns the new
state and whether the branch executed Python's early `return
unprocessed` (unauthorized `set_speeds` / `commentate` / `report`). -/
def applyCmd (cst : Consts) (s : Sup) (cli : ℕ) (cmd : List Char) : Sup × Bool :=
  let role := getRoleK s.keys cmd
  let s1 : Sup :=
    { s with
      roleClient := fun r => if r = role then some cli else s.roleClient r,
      log := s.log ++ [cmd] }
  if startsW ("get_info(".toList) cmd then
    ({ s1 with out := s1.out ++ [Eff.send cli (OutMsg.info 0 (s.keys 0))] }, false)
  else if startsW ("ready(".toList) cmd then
    let s2 : Sup := { s1 with ready := pyListSet s1.ready role true }
    let s3 : Sup :=
      if role = 0 then { s2 with out := s2.out ++ [Eff.resetBufA] }
      else if role = 1 then { s2 with out := s2.out ++ [Eff.resetBufB] }
      else s2
    (s3, false)
  else if startsW ("set_speeds(".toList) cmd then
    if role > 1 then (s1, true)
    else
      let start := pyFindStr cmd ['"', ','] + 2
      let stop := pyFindChFrom cmd ')' start.toNat
      ({ s1 with out := s1.out ++ [Eff.speeds role (pySlice cmd start stop)] }, false)
  else if startsW ("commentate(".toList) cmd then
    if role ≠ 2 then (s1, true)
    else
      let txt := pySlice cmd (pyFindStr cmd ['"', ','] + 4) (-2)
      ({ s1 with comments := pushComment cst.NUM_COMMENTS s1.comments (s.time, txt) }, false)
  else if startsW ("report(".toList) cmd then
    if role ≠ 3 then (s1, true)
    else
      let txt := pySlice cmd (pyFindStr cmd ['"', ','] + 2) (-1)
      ({ s1 with report := some txt }, false)
  else
    (s1, false)

/-- The `for command in data` loop of `GameSupervisor.callback`: skip
empty fragments, carry incomplete ones (re-prefixed with the marker)
in `unprocessed`, dispatch complete ones, stopping early when a branch
returns. -/
def processFrags (cst : Consts) (cli : ℕ) :
    Sup → List (List Char) → List Char → Sup × List Char
  | s, [], unp => (s, unp)
  | s, f :: rest, unp =>
    if f = [] then processFrags cst cli s rest unp
    else if endsParen f = false then
      processFrags cst cli s rest (unp ++ marker ++ f)
    else
      let p := applyCmd cst s cli f
      if p.2 then (p.1, unp)
      else processFrags cst cli p.1 rest unp

/-- `GameSupervisor.callback`: reject a buffer that does not start with
the marker, otherwise split on the marker and process the fragments.
Returns the new state and the leftover (Python's `unprocessed`). -/
def callback (cst : Consts) (s : Sup) (cli : ℕ) (msg : List Char) : Sup × List Char :=
  if startsW marker msg = false then (s, [])
  else processFrags cst cli s (splitMk msg []) []

/-- `TcpServer.spin`'s per-read behaviour: each read's bytes are appended
to the connection's leftover buffer and fed to `callback`, whose result
becomes the new leftover. -/
def feedAll (cst : Consts) (cli : ℕ) (s : Sup) (pieces : List (List Char)) :
    Sup × List Char :=
  pieces.foldl (fun p piece => callback cst p.1 cli (p.2 ++ piece)) (s, [])

/-! ## Per-tick telemetry

`get_robot_posture`, `get_ball_position`, `get_ball_velocity` and
`get_robot_touch_ball` read the simulation backend.  One tick's readings
are bundled in an `Oracle`: `ballPos` is the read taken at the top of
the loop body (`self.ball_position = self.get_ball_position()`), and
`ballPos2` the later re-reads inside the DEFAULT branch (after a goal or
out-of-field reset may have moved the ball). -/

structure Posture where
  x : ℚ
  y : ℚ
  th : ℚ
  standing : Bool

structure Oracle where
  touches : Fin 2 → Fin 5 → Bool
  posture : Fin 2 → Fin 5 → Posture
  ballPos : ℚ × ℚ
  ballPos2 : ℚ × ℚ
  ballSpeed : ℚ

/-! ## Geometry helpers -/

/-- `GameSupervisor.robot_in_field`. -/
def robotInField (c : Consts) (x y : ℚ) : Bool :=
  if |y| < c.GOAL_WIDTH / 2 then
    if |x| > c.FIELD_LENGTH / 2 + c.GOAL_DEPTH then false else true
  else if |x| > c.FIELD_LENGTH / 2 then false
  else true

/-- `GameSupervisor.ball_in_field` (including the triangular corner cut). -/
def ballInField (c : Consts) (pos : ℚ × ℚ) : Bool :=
  let ax := |pos.1|
  let ay := |pos.2|
  if ax > c.FIELD_LENGTH / 2 + c.WALL_THICKNESS ∧ ay > c.GOAL_WIDTH / 2 + c.WALL_THICKNESS then
    false
  else if ay > c.FIELD_WIDTH / 2 + c.WALL_THICKNESS then false
  else
    let csx := c.FIELD_LENGTH / 2 - c.CORNER_LENGTH
    let csy := c.FIELD_WIDTH / 2 + c.WALL_THICKNESS
    let cex := c.FIELD_LENGTH / 2 + c.WALL_THICKNESS
    let cey := c.FIELD_WIDTH / 2 - c.CORNER_LENGTH
    if csx < ax ∧ ax < cex then
      let border := cey + (ax - cex) * (cey - csy) / (cex - csx)
      if ay > border then false else true
    else true

/-- `GameSupervisor.any_object_nearby`: is the ball or any robot strictly
within radius `r` of the target point?  (The ball position is passed in
because the source re-reads it at the call site.) -/
def anyNearby (o : Oracle) (ball : ℚ × ℚ) (tx ty r : ℚ) : Bool :=
  decide ((tx - ball.1) * (tx - ball.1) + (ty - ball.2) * (ty - ball.2) < r * r) ||
    ((List.finRange 2).any fun t => (List.finRange 5).any fun i =>
      let p := o.posture t i
      decide ((tx - p.x) * (tx - p.x) + (ty - p.y) * (ty - p.y) < r * r))

/-! ## Ball-ownership tie-break (`get_corner_ownership` / `get_pa_ownership`)

The robot data these two functions consume (active flag plus posture) is
abstracted as a list of `RobotObs` per team; `sq` stands for
`math.sqrt`. -/

structure RobotObs where
  active : Bool
  x : ℚ
  y : ℚ

/-- The counting loop shared by both ownership functions: number of
robots passing `region`, and the summed `sq`-distance to the ball over
those robots. -/
def teamStats (sq : ℚ → ℚ) (region : RobotObs → Bool) (ball : ℚ × ℚ)
    (l : List RobotObs) : ℕ × ℚ :=
  l.foldl
    (fun acc r =>
      if region r then
        (acc.1 + 1,
         acc.2 + sq ((r.x - ball.1) * (r.x - ball.1) + (r.y - ball.2) * (r.y - ball.2)))
      else acc)
    (0, 0)

/-- The decision cascade shared verbatim by both ownership functions:
more robots wins; then smaller summed distance; then the attacking side
of the ball's x-coordinate. -/
def ownDecision (n0 n1 : ℕ) (d0 d1 : ℚ) (bx : ℚ) : Fin 2 :=
  if n0 > n1 then 0
  else if n1 > n0 then 1
  else if d0 < d1 then 0
  else if d1 < d0 then 1
  else if bx > 0 then 0
  else 1

/-- The corner region of concern (active robots only). -/
def cornerRegion (c : Consts) (sx sy : ℚ) (r : RobotObs) : Bool :=
  r.active && decide (sx * r.x > c.FIELD_LENGTH / 2 - c.PENALTY_AREA_DEPTH) &&
    decide (sy * r.y > c.PENALTY_AREA_WIDTH / 2)

/-- The penalty area of concern (active robots only). -/
def paRegion (c : Consts) (sx : ℚ) (r : RobotObs) : Bool :=
  r.active && decide (sx * r.x > c.FIELD_LENGTH / 2 - c.PENALTY_AREA_DEPTH) &&
    decide (|r.y| < c.PENALTY_AREA_WIDTH / 2)

/-- `GameSupervisor.get_corner_ownership`. -/
def cornerOwnership (sq : ℚ → ℚ) (c : Consts) (ball : ℚ × ℚ)
    (red blue : List RobotObs) : Fin 2 :=
  let sx : ℚ := if ball.1 > 0 then 1 else -1
  let sy : ℚ := if ball.2 > 0 then 1 else -1
  let t0 := teamStats sq (cornerRegion c sx sy) ball red
  let t1 := teamStats sq (cornerRegion c sx sy) ball blue
  ownDecision t0.1 t1.1 t0.2 t1.2 ball.1

/-- `GameSupervisor.get_pa_ownership`. -/
def paOwnership (sq : ℚ → ℚ) (c : Consts) (ball : ℚ × ℚ)
    (red blue : List RobotObs) : Fin 2 :=
  let sx : ℚ := if ball.1 > 0 then 1 else -1
  let t0 := teamStats sq (paRegion c sx) ball red
  let t1 := teamStats sq (paRegion c sx) ball blue
  ownDecision t0.1 t1.1 t0.2 t1.2 ball.1

/-- The robot observations of one team as consumed by the ownership and
penalty-area functions, taken from the referee's active flags and the
tick's postures. -/
def obsOf (s : Sup) (o : Oracle) (t : Fin 2) : List RobotObs :=
  (List.finRange 5).map fun i =>
    { active := (s.robots t i).active, x := (o.posture t i).x, y := (o.posture t i).y }

/-- `GameSupervisor.check_penalty_area`: decide whether the penalty-area
robot-count rule fires and, when it does, set the ball ownership. -/
def checkPA (c : Consts) (o : Oracle) (s : Sup) : Bool × Sup :=
  let bx := o.ballPos2.1
  let byv := o.ballPos2.2
  if decide (|bx| < c.FIELD_LENGTH / 2 - c.PENALTY_AREA_DEPTH) ||
      decide (|byv| > c.PENALTY_AREA_WIDTH / 2) then
    (false, s)
  else
    let sx : ℚ := if bx > 0 then 1 else -1
    let cnt : Fin 2 → ℕ := fun t =>
      ((List.finRange 5).filter fun i =>
        (s.robots t i).active &&
          decide (sx * (o.posture t i).x > c.FIELD_LENGTH / 2 - c.PENALTY_AREA_DEPTH) &&
          decide (|(o.posture t i).y| < c.PENALTY_AREA_WIDTH / 2)).length
    if bx < 0 then
      if cnt 0 > c.PA_THRESHOLD_D then (true, { s with ballOwnership := 1 })
      else if cnt 1 > c.PA_THRESHOLD_A then (true, { s with ballOwnership := 0 })
      else (false, s)
    else
      if cnt 1 > c.PA_THRESHOLD_D then (true, { s with ballOwnership := 0 })
      else if cnt 0 > c.PA_THRESHOLD_A then (true, { s with ballOwnership := 1 })
      else (false, s)

/-! ## The run-loop body (`GameSupervisor.run`, started play) -/

/-- Touch bookkeeping (run-loop lines just after the publish): copy this
tick's touch packets into the robot records and, when anybody touched
the ball, replace `recent_touch` wholesale. -/
def touchPhase (o : Oracle) (s : Sup) : Sup :=
  let anyT := (List.finRange 2).any fun t => (List.finRange 5).any fun i => o.touches t i
  { s with
    robots := fun t i => { s.robots t i with touch := o.touches t i },
    recentTouch := if anyT then o.touches else s.recentTouch }

/-- The per-robot fall rule: an active robot whose fall timer has aged
past `FALL_TIME_MS` is deactivated and sent out (flag `true` = a
`send_to_foulzone` teleport was issued); otherwise a standing robot has
its fall timer refreshed. -/
def fallStep1 (c : Consts) (time : ℤ) (standing : Bool) (r : RobotSt) : RobotSt × Bool :=
  if r.active = true ∧ time - r.fallTime ≥ c.FALL_TIME_MS then
    ({ r with active := false, sentoutTime := time }, true)
  else if standing then ({ r with fallTime := time }, false)
  else (r, false)

/-- Fall check over all robots. -/
def fallPhase (c : Consts) (o : Oracle) (s : Sup) : Sup :=
  { s with
    robots := fun t i => (fallStep1 c s.time (o.posture t i).standing (s.robots t i)).1,
    out := s.out ++
      ((List.finRange 2).flatMap fun t => (List.finRange 5).filterMap fun i =>
        if (fallStep1 c s.time (o.posture t i).standing (s.robots t i)).2 then
          some (Eff.teleFoul t i)
        else none) }

/-- Out-of-field check: an active robot outside the playable envelope is
deactivated and sent to the foul zone. -/
def fieldPhase (c : Consts) (o : Oracle) (s : Sup) : Sup :=
  let trig : Fin 2 → Fin 5 → Bool := fun t i =>
    (s.robots t i).active && !robotInField c (o.posture t i).x (o.posture t i).y
  { s with
    robots := fun t i =>
      if trig t i then { s.robots t i with active := false, sentoutTime := s.time }
      else s.robots t i,
    out := s.out ++
      ((List.finRange 2).flatMap fun t => (List.finRange 5).filterMap fun i =>
        if trig t i then some (Eff.teleFoul t i) else none) }

/-- Opponent-penalty-area dwell check (`niopa_time`), with the
1.5-body-size proximity guard on the return teleport. -/
def niopaPhase (c : Consts) (o : Oracle) (s : Sup) : Sup :=
  let upd : Fin 2 → Fin 5 → RobotSt × Bool := fun t i =>
    let r := s.robots t i
    let p := o.posture t i
    let sign : ℚ := if t = 0 then 1 else -1
    let x := sign * p.x
    let y := sign * p.y
    if (decide (x > c.FIELD_LENGTH / 2) && decide (|y| < c.GOAL_WIDTH / 2)) ||
        (decide (x ≤ c.FIELD_LENGTH / 2) &&
          decide (x > c.FIELD_LENGTH / 2 - c.PENALTY_AREA_DEPTH) &&
          decide (|y| < c.PENALTY_AREA_WIDTH / 2)) then
      if s.time - r.niopaTime ≥ c.IOPA_TIME_LIMIT_MS then
        if anyNearby o o.ballPos (sign * (c.FORMATION_DEFAULT i).1)
            (sign * (c.FORMATION_DEFAULT i).2) (3 / 2 * c.ROBOT_SIZE i) = false then
          ({ r with niopaTime := s.time }, true)
        else (r, false)
      else (r, false)
    else ({ r with niopaTime := s.time }, false)
  { s with
    robots := fun t i => (upd t i).1,
    out := s.out ++
      ((List.finRange 2).flatMap fun t => (List.finRange 5).filterMap fun i =>
        if (upd t i).2 then some (Eff.teleField t i) else none) }

/-- Goalkeeper own-penalty-area dwell check (`ipa_time`). -/
def gkPhase (c : Consts) (o : Oracle) (s : Sup) : Sup :=
  let upd : Fin 2 → RobotSt × Bool := fun t =>
    let r := s.robots t 0
    let p := o.posture t 0
    let sign : ℚ := if t = 0 then 1 else -1
    let x := sign * p.x
    let y := sign * p.y
    if (decide (x < -(c.FIELD_LENGTH / 2)) && decide (|y| < c.GOAL_WIDTH / 2)) ||
        (decide (x ≥ -(c.FIELD_LENGTH / 2)) &&
          decide (x < -(c.FIELD_LENGTH / 2) + c.PENALTY_AREA_DEPTH) &&
          decide (|y| < c.PENALTY_AREA_WIDTH / 2)) then
      ({ r with ipaTime := s.time }, false)
    else if s.time - r.ipaTime ≥ c.GK_NIPA_TIME_LIMIT_MS then
      if anyNearby o o.ballPos (sign * (c.FORMATION_DEFAULT 0).1)
          (sign * (c.FORMATION_DEFAULT 0).2) (3 / 2 * c.ROBOT_SIZE 0) = false then
        ({ r with ipaTime := s.time }, true)
      else (r, false)
    else (r, false)
  { s with
    robots := fun t i => if i = 0 then (upd t).1 else s.robots t i,
    out := s.out ++
      ((List.finRange 2).filterMap fun t =>
        if (upd t).2 then some (Eff.teleField t 0) else none) }

/-- `GameSupervisor.reset`'s effect on the referee state: every robot
record is re-initialised (`reset_robot`), recent touches are cleared and
the deadlock timer restarted.  The chosen formations only move bodies in
the simulation backend, recorded as one `resetFormation` effect. -/
def resetAll (s : Sup) : Sup :=
  { s with
    robots := fun _ _ =>
      { active := true, touch := false, fallTime := s.time, sentoutTime := 0,
        niopaTime := s.time, ipaTime := s.time },
    recentTouch := fun _ _ => false,
    deadlockTime := s.time,
    out := s.out ++ [Eff.resetFormation] }

/-- `GameSupervisor.lock_all_robots`. -/
def lockAll (s : Sup) (locked : Bool) : Sup :=
  { s with robots := fun t i => { s.robots t i with active := !locked } }

/-- Single-robot `active` override (`self.robot[t][i]['active'] = v`). -/
def setActive (s : Sup) (t : Fin 2) (i : Fin 5) (v : Bool) : Sup :=
  { s with robots := fun t2 i2 =>
      if t2 = t ∧ i2 = i then { s.robots t2 i2 with active := v } else s.robots t2 i2 }

/-- The goal branch of the DEFAULT phase (ball fully over a goal line):
score, pause, restart in KICKOFF with inverted ownership. -/
def goalBranch (s : Sup) : Sup :=
  let bx := s.ballPosition.1
  let goaler : Fin 2 := if bx > 0 then 0 else 1
  let s1 : Sup :=
    { s with
      score := fun t => if t = goaler then s.score t + 1 else s.score t,
      out := s.out ++ [Eff.stopAll, Eff.waitStep] }
  let s2 : Sup :=
    { s1 with
      gameState := GS.kickoff,
      ballOwnership := if bx > 0 then (1 : Fin 2) else 0,
      kickoffTime := s1.time }
  let s3 := setActive (lockAll (resetAll s2) true) s2.ballOwnership 4 true
  { s3 with
    out := s3.out ++ [Eff.waitStep],
    resetReason := if bx > 0 then SCORE_RED_TEAM else SCORE_BLUE_TEAM }

/-- The recent-touch tally of one team (`touch_count` in the source). -/
def touchCount (s : Sup) (t : Fin 2) : ℕ :=
  ((List.finRange 5).filter fun i => s.recentTouch t i).length

/-- The out-of-field branch of the DEFAULT phase: ownership by recent
touches (tie to the attacking side), then GOALKICK or CORNERKICK by the
exit side. -/
def outBranch (s : Sup) : Sup :=
  let bx := s.ballPosition.1
  let s0 : Sup := { s with out := s.out ++ [Eff.stopAll, Eff.waitStep] }
  let own : Fin 2 :=
    if touchCount s 0 > touchCount s 1 then 1
    else if touchCount s 1 > touchCount s 0 then 0
    else if bx < 0 then 1
    else 0
  let s1 : Sup := { s0 with ballOwnership := own }
  let s2 : Sup :=
    if bx < 0 then
      if own = 0 then
        let a : Sup := { s1 with gameState := GS.goalkick, goalkickTime := s1.time }
        let b := setActive (lockAll (resetAll a) true) own 0 true
        { b with resetReason := RR.goalkick }
      else
        let a : Sup := { s1 with gameState := GS.cornerkick, cornerkickTime := s1.time }
        let b := setActive (lockAll (resetAll a) true) own 4 true
        { b with resetReason := RR.cornerkick }
    else
      if own = 1 then
        let a : Sup := { s1 with gameState := GS.goalkick, goalkickTime := s1.time }
        let b := setActive (lockAll (resetAll a) true) own 0 true
        { b with resetReason := RR.goalkick }
      else
        let a : Sup := { s1 with gameState := GS.cornerkick, cornerkickTime := s1.time }
        let b := setActive (lockAll (resetAll a) true) own 4 true
        { b with resetReason := RR.cornerkick }
  { s2 with out := s2.out ++ [Eff.waitStep] }

/-- The trigger of the sent-out return check (inside the DEFAULT
branch) for robot `(t, i)`: a nonzero sent-out timer that has aged past
`SENTOUT_DURATION_MS`, with no object within 1.5 body sizes of the
default-formation target. -/
def sentoutTrig (c : Consts) (o : Oracle) (s : Sup) (t : Fin 2) (i : Fin 5) : Bool :=
  let r := s.robots t i
  let sign : ℚ := if t = 0 then 1 else -1
  !(r.sentoutTime == 0) && decide (s.time - r.sentoutTime ≥ c.SENTOUT_DURATION_MS) &&
    (anyNearby o o.ballPos2 ((c.FORMATION_DEFAULT i).1 * sign)
      ((c.FORMATION_DEFAULT i).2 * sign) (3 / 2 * c.ROBOT_SIZE i) = false)

def sentoutPhase (c : Consts) (o : Oracle) (s : Sup) : Sup :=
  { s with
    robots := fun t i =>
      if sentoutTrig c o s t i then { s.robots t i with active := true, sentoutTime := 0 }
      else s.robots t i,
    out := s.out ++
      ((List.finRange 2).flatMap fun t => (List.finRange 5).filterMap fun i =>
        if sentoutTrig c o s t i then some (Eff.teleField t i) else none) }

/-- The four-way goal-kick / penalty-kick restart used when the
penalty-area rule (or the penalty-area deadlock) fires; the ownership
has already been set on `s`. -/
def paResetBranch (bx : ℚ) (s : Sup) : Sup :=
  let s0 : Sup := { s with out := s.out ++ [Eff.stopAll, Eff.waitStep] }
  let s1 : Sup :=
    if bx < 0 ∧ s0.ballOwnership = 0 then
      let a : Sup :=
        { s0 with gameState := GS.goalkick, resetReason := RR.goalkick,
                  goalkickTime := s0.time }
      setActive (lockAll (resetAll a) true) a.ballOwnership 0 true
    else if bx > 0 ∧ s0.ballOwnership = 1 then
      let a : Sup :=
        { s0 with gameState := GS.goalkick, resetReason := RR.goalkick,
                  goalkickTime := s0.time }
      setActive (lockAll (resetAll a) true) a.ballOwnership 0 true
    else if bx < 0 ∧ s0.ballOwnership = 1 then
      let a : Sup :=
        { s0 with gameState := GS.penaltykick, resetReason := RR.penaltykick,
                  penaltykickTime := s0.time }
      setActive (lockAll (resetAll a) true) a.ballOwnership 4 true
    else
      let a : Sup :=
        { s0 with gameState := GS.penaltykick, resetReason := RR.penaltykick,
                  penaltykickTime := s0.time }
      setActive (lockAll (resetAll a) true) a.ballOwnership 4 true
  { s1 with out := s1.out ++ [Eff.waitStep] }

/-- Deadlock inside a penalty area: ownership by the penalty-area
tie-break, then the four-way restart, then the deadlock timer restarts. -/
def deadlockPA (sq : ℚ → ℚ) (c : Consts) (o : Oracle) (s : Sup) : Sup :=
  let s1 : Sup :=
    { s with ballOwnership := paOwnership sq c o.ballPos2 (obsOf s o 0) (obsOf s o 1) }
  let s2 := paResetBranch o.ballPos2.1 s1
  { s2 with deadlockTime := s2.time }

/-- Deadlock inside a corner region: ownership by the corner tie-break,
then a CORNERKICK restart. -/
def deadlockCorner (sq : ℚ → ℚ) (c : Consts) (o : Oracle) (s : Sup) : Sup :=
  let s1 : Sup :=
    { s with
      ballOwnership := cornerOwnership sq c o.ballPos2 (obsOf s o 0) (obsOf s o 1),
      out := s.out ++ [Eff.stopAll, Eff.waitStep] }
  let s2 : Sup := { s1 with gameState := GS.cornerkick, cornerkickTime := s1.time }
  let s3 := setActive (lockAll (resetAll s2) true) s2.ballOwnership 4 true
  { s3 with
    out := s3.out ++ [Eff.waitStep],
    resetReason := RR.cornerkick,
    deadlockTime := s3.time }

/-- Deadlock in the general region: relocate the ball to the quadrant
anchor, stay in DEFAULT. -/
def deadlockGeneral (o : Oracle) (s : Sup) : Sup :=
  let q : ℕ :=
    if o.ballPos2.1 < 0 then (if o.ballPos2.2 > 0 then 0 else 1)
    else if o.ballPos2.2 > 0 then 2
    else 3
  { s with
    out := s.out ++ [Eff.stopAll, Eff.waitStep, Eff.relocBall q, Eff.waitStep],
    resetReason := RR.deadlock,
    deadlockTime := s.time }

/-- The DEFAULT-phase handler (run-loop lines 1088-1333): goal, then
out-of-field, then the sent-out return loop, then the penalty-area rule,
then deadlock resolution. -/
def defaultBranch (sq : ℚ → ℚ) (c : Consts) (dl : Bool) (o : Oracle) (s : Sup) : Sup :=
  let s1 : Sup :=
    if decide (|s.ballPosition.1| > c.FIELD_LENGTH / 2) &&
        decide (|s.ballPosition.2| < c.GOAL_WIDTH / 2) then goalBranch s
    else if ballInField c s.ballPosition = false then outBranch s
    else s
  let s2 := sentoutPhase c o s1
  let pa := checkPA c o s2
  let s3 := if pa.1 then paResetBranch o.ballPos2.1 pa.2 else pa.2
  if s3.resetReason = RR.rrNone ∧ dl then
    if o.ballSpeed ≥ c.DEADLOCK_THRESHOLD then { s3 with deadlockTime := s3.time }
    else if s3.time - s3.deadlockTime ≥ c.DEADLOCK_DURATION_MS then
      if |o.ballPos2.1| > c.FIELD_LENGTH / 2 - c.PENALTY_AREA_DEPTH then
        if |o.ballPos2.2| < c.PENALTY_AREA_WIDTH / 2 then deadlockPA sq c o s3
        else deadlockCorner sq c o s3
      else deadlockGeneral o s3
    else s3
  else s3

/-- Transition to DEFAULT with all robots unlocked. -/
def unlockDefault (s : Sup) : Sup :=
  lockAll { s with gameState := GS.stateDefault } false

/-- The KICKOFF-phase handler. -/
def kickoffBranch (c : Consts) (s : Sup) : Sup :=
  let s1 : Sup :=
    if s.time - s.kickoffTime ≥ c.KICKOFF_TIME_LIMIT_MS then unlockDefault s
    else if s.ballPosition.1 * s.ballPosition.1 + s.ballPosition.2 * s.ballPosition.2 >
        c.KICKOFF_BORDER * c.KICKOFF_BORDER then unlockDefault s
    else s
  { s1 with deadlockTime := s1.time }

/-- The GOALKICK-phase handler. -/
def goalkickBranch (c : Consts) (s : Sup) : Sup :=
  let s1 : Sup :=
    if s.time - s.goalkickTime ≥ c.GOALKICK_TIME_LIMIT_MS then unlockDefault s
    else if (s.robots s.ballOwnership 0).touch then unlockDefault s
    else s
  { s1 with deadlockTime := s1.time }

/-- The CORNERKICK-phase handler. -/
def cornerBranch (c : Consts) (s : Sup) : Sup :=
  let s1 : Sup :=
    if s.time - s.cornerkickTime ≥ c.CORNERKICK_TIME_LIMIT_MS then unlockDefault s
    else if (List.finRange 5).any (fun i => (s.robots s.ballOwnership i).touch) then
      unlockDefault s
    else s
  { s1 with deadlockTime := s1.time }

/-- The PENALTYKICK-phase handler. -/
def penaltyBranch (c : Consts) (s : Sup) : Sup :=
  let s1 : Sup :=
    if s.time - s.penaltykickTime ≥ c.PENALTYKICK_TIME_LIMIT_MS then unlockDefault s
    else if (s.robots s.ballOwnership 4).touch then unlockDefault s
    else s
  { s1 with deadlockTime := s1.time }

/-- End of a half (`self.time >= self.game_time`): halftime restart,
game end, or (repeat mode) episode restart. -/
def halfOver (rep : Bool) (s : Sup) : Sup :=
  if s.halfPassed then
    if rep then
      { s with
        out := s.out ++ [Eff.publish RR.episodeEnd, Eff.episodeCam, Eff.stopAll, Eff.waitStep],
        resetReason := RR.episodeEnd,
        halfPassed := false }
    else
      { s with
        out := s.out ++ [Eff.publish RR.gameEnd, Eff.stopAll, Eff.waitStep],
        finished := true }
  else
    let s1 : Sup :=
      { s with
        out := s.out ++ [Eff.publish RR.halftime, Eff.stopAll, Eff.waitStep, Eff.markHalf],
        halfPassed := true,
        ballOwnership := 1,
        gameState := GS.kickoff,
        time := 0,
        kickoffTime := 0 }
    let s2 := setActive (lockAll (resetAll s1) true) 1 4 true
    { s2 with out := s2.out ++ [Eff.waitStep, Eff.publish RR.gameStart] }

/-- `self.ball_position = self.get_ball_position()` at the top of the
loop body. -/
def startTick (o : Oracle) (s : Sup) : Sup :=
  { s with ballPosition := o.ballPos }

/-- `publish_current_frame()` followed by `self.reset_reason = NONE`. -/
def publishTick (s : Sup) : Sup :=
  { s with out := s.out ++ [Eff.publish s.resetReason], resetReason := RR.rrNone }

/-- The unconditional per-tick checks: touch bookkeeping, fall check,
out-of-field check, opponent-penalty-area dwell, goalkeeper dwell. -/
def preTick (c : Consts) (o : Oracle) (s : Sup) : Sup :=
  gkPhase c o (niopaPhase c o (fieldPhase c o (fallPhase c o (touchPhase o s))))

/-- The phase dispatch of the run-loop body. -/
def phaseDispatch (sq : ℚ → ℚ) (c : Consts) (dl : Bool) (o : Oracle) (s2 : Sup) : Sup :=
  match s2.gameState with
  | GS.stateDefault => defaultBranch sq c dl o s2
  | GS.kickoff => kickoffBranch c s2
  | GS.goalkick => goalkickBranch c s2
  | GS.cornerkick => cornerBranch c s2
  | GS.penaltykick => penaltyBranch c s2

/-- One started-play iteration of the run loop: refresh the cached ball
position, handle half/game over (which skips the rest of the body),
otherwise publish the previous tick's frames, run the unconditional
checks, dispatch on the phase, and advance the clock by one period. -/
def runStep (sq : ℚ → ℚ) (c : Consts) (dl rep : Bool) (o : Oracle) (s : Sup) : Sup :=
  let s0 := startTick o s
  if s0.time ≥ s0.gameTime then halfOver rep s0
  else
    let s3 := phaseDispatch sq c dl o (preTick c o (publishTick s0))
    { s3 with time := s3.time + c.PERIOD_MS }

/-! ## Frames (`GameSupervisor.generate_frame`)

A frame minus the parts that are outside the referee model: `subimages`
(camera tiles) and the constant `EOF` marker.  `pi` is `constants.PI`. -/

structure RCoord where
  x : ℚ
  y : ℚ
  th : ℚ
  active : Bool
  touch : Bool
deriving DecidableEq

structure FrameM where
  time : ℚ
  score : ℤ × ℤ
  resetReason : RR
  gameState : GS
  ballOwnership : Bool
  halfPassed : Bool
  own : Fin 5 → RCoord
  opp : Fin 5 → RCoord
  ball : ℚ × ℚ

/-- The reset-reason remap applied to team blue's frame
(`SCORE_RED_TEAM -> SCORE_OPPONENT`, `SCORE_BLUE_TEAM -> SCORE_MYTEAM`). -/
def blueReason (r : RR) : RR :=
  if r = SCORE_RED_TEAM then RR.scoreOpponent
  else if r = SCORE_BLUE_TEAM then RR.scoreMyteam
  else r

/-- `GameSupervisor.generate_frame` for a team: `tNow` is `getTime()`,
`rr` the optional `reset_reason` argument (falling back to the state's).
`coordinates[0]` is the own block, `coordinates[1]` the opponent block. -/
def genFrame (pi : ℚ) (team : Fin 2) (s : Sup) (o : Oracle) (tNow : ℚ)
    (rr : Option RR) : FrameM :=
  let oppT : Fin 2 := if team = 0 then 1 else 0
  let base := rr.getD s.resetReason
  let coord : Fin 2 → Fin 5 → RCoord := fun cT i =>
    let p := o.posture cT i
    { x := if team = 0 then p.x else -p.x,
      y := if team = 0 then p.y else -p.y,
      th := if team = 0 then p.th else p.th + pi,
      active := (s.robots cT i).active,
      touch := (s.robots cT i).touch }
  { time := tNow,
    score := (s.score team, s.score oppT),
    resetReason := if team = 1 then blueReason base else base,
    gameState := s.gameState,
    ballOwnership := s.ballOwnership = team,
    halfPassed := s.halfPassed,
    own := coord team,
    opp := coord oppT,
    ball := if team = 0 then s.ballPosition else (-s.ballPosition.1, -s.ballPosition.2) }

/-- The per-robot coordinate mirroring of team blue's frame: negate x
and y, add `pi` to the heading. -/
def mirrorC (pi : ℚ) (rc : RCoord) : RCoord :=
  { rc with x := -rc.x, y := -rc.y, th := rc.th + pi }

/-- The team-blue mirroring of `generate_frame` as a frame-to-frame
transformation: negate every coordinate, rotate every heading by `pi`,
swap the own/opponent blocks (and the score pair / ownership flag with
them) and remap the scored-by reset reasons. -/
def mirrorFrame (pi : ℚ) (f : FrameM) : FrameM :=
  { time := f.time,
    score := (f.score.2, f.score.1),
    resetReason := blueReason f.resetReason,
    gameState := f.gameState,
    ballOwnership := !f.ballOwnership,
    halfPassed := f.halfPassed,
    own := fun i => mirrorC pi (f.opp i),
    opp := fun i => mirrorC pi (f.own i),
    ball := (-f.ball.1, -f.ball.2) }

/-- Field-by-field closeness of two frames up to a tolerance on the
numeric coordinate data (the shape the spec's "within floating
tolerance" takes in the model). -/
def rcClose (tol : ℚ) (a b : RCoord) : Prop :=
  |a.x - b.x| ≤ tol ∧ |a.y - b.y| ≤ tol ∧ |a.th - b.th| ≤ tol ∧
    a.active = b.active ∧ a.touch = b.touch

def frameClose (tol : ℚ) (a b : FrameM) : Prop :=
  a.time = b.time ∧ a.score = b.score ∧ a.resetReason = b.resetReason ∧
    a.gameState = b.gameState ∧ a.ballOwnership = b.ballOwnership ∧
    a.halfPassed = b.halfPassed ∧ (∀ i, rcClose tol (a.own i) (b.own i)) ∧
    (∀ i, rcClose tol (a.opp i) (b.opp i)) ∧
    |a.ball.1 - b.ball.1| ≤ tol ∧ |a.ball.2 - b.ball.2| ≤ tol

/-! ## Fall-timer iteration (claim C7)

`fallIter c t0 P r k` is the robot record after the fall check has run
on `r` at times `t0, t0 + P, ..., t0 + (k-1)·P`, the robot never
standing. -/

def fallIter (c : Consts) (t0 P : ℤ) (r0 : RobotSt) : ℕ → RobotSt
  | 0 => r0
  | k + 1 => (fallStep1 c (t0 + k * P) false (fallIter c t0 P r0 k)).1

/-! ## The spec's tie-break rule (claim C6)

Written from the spec's words ("count active robots of each team within
the relevant region; more robots ⇒ that team owns; equal count ⇒ compare
average Euclidean distance-to-ball among those robots, closer average ⇒
that team owns; exact tie ⇒ the team on the attacking side of the ball's
x-coordinate owns"), to be compared with the source functions. -/

def specCount (region : RobotObs → Bool) (l : List RobotObs) : ℕ :=
  (l.filter region).length

def specDist (sq : ℚ → ℚ) (ball : ℚ × ℚ) (r : RobotObs) : ℚ :=
  sq ((r.x - ball.1) * (r.x - ball.1) + (r.y - ball.2) * (r.y - ball.2))

def specAvg (sq : ℚ → ℚ) (region : RobotObs → Bool) (ball : ℚ × ℚ)
    (l : List RobotObs) : ℚ :=
  ((l.filter region).map (specDist sq ball)).sum / (specCount region l : ℚ)

def specTieBreak (sq : ℚ → ℚ) (region : RobotObs → Bool) (ball : ℚ × ℚ)
    (red blue : List RobotObs) : Fin 2 :=
  let n0 := specCount region red
  let n1 := specCount region blue
  if n0 > n1 then 0
  else if n1 > n0 then 1
  else if specAvg sq region ball red < specAvg sq region ball blue then 0
  else if specAvg sq region ball blue < specAvg sq region ball red then 1
  else if ball.1 > 0 then 0
  else 1

/-! ## Framing and authorization vocabulary for the claims -/

/-- Render a list of command bodies the way a client transmits them:
each prefixed by the marker, concatenated. -/
def renderAll : List (List Char) → List Char
  | [] => []
  | c :: rest => marker ++ c ++ renderAll rest

/-- Whether dispatching the complete fragment `cmd` takes one of the
early-`return` branches of `callback` (unauthorized `set_speeds`,
`commentate` or `report`), as a function of the registered keys. -/
def abortsK (keys : Fin 4 → Option (List Char)) (cmd : List Char) : Bool :=
  if startsW ("get_info(".toList) cmd then false
  else if startsW ("ready(".toList) cmd then false
  else if startsW ("set_speeds(".toList) cmd then decide (getRoleK keys cmd > 1)
  else if startsW ("commentate(".toList) cmd then decide (getRoleK keys cmd ≠ 2)
  else if startsW ("report(".toList) cmd then decide (getRoleK keys cmd ≠ 3)
  else false

/-- A command body that framing and dispatch both handle transparently:
nonempty, closed by `)`, without an embedded marker, and not triggering
an authorization early return. -/
def goodCmd (keys : Fin 4 → Option (List Char)) (x : List Char) : Prop :=
  x ≠ [] ∧ endsParen x = true ∧ hasMk x = false ∧ abortsK keys x = false

instance (keys : Fin 4 → Option (List Char)) (x : List Char) :
    Decidable (goodCmd keys x) :=
  decidable_of_iff
    (x ≠ [] ∧ endsParen x = true ∧ hasMk x = false ∧ abortsK keys x = false) Iff.rfl

/-- Sequential dispatch of command bodies (no framing, no early stop). -/
def applyList (cst : Consts) (cli : ℕ) (s : Sup) (cmds : List (List Char)) : Sup :=
  cmds.foldl (fun s2 x => (applyCmd cst s2 cli x).1) s

/-- The command-visible observable state: ready flags, comment buffer,
report, scores, phase, ownership, reset reason and emitted effects. -/
structure Obs where
  ready : List Bool
  comments : List (ℤ × List Char)
  report : Option (List Char)
  score0 : ℤ
  score1 : ℤ
  gameState : GS
  ballOwnership : Fin 2
  resetReason : RR
  out : List Eff
deriving DecidableEq

def obsState (s : Sup) : Obs :=
  { ready := s.ready, comments := s.comments, report := s.report,
    score0 := s.score 0, score1 := s.score 1, gameState := s.gameState,
    ballOwnership := s.ballOwnership, resetReason := s.resetReason, out := s.out }

/-- The proximity guard of the sent-out return check, robot `(t, i)`:
true when nothing blocks the return to the default formation slot. -/
def sentoutGuardFree (c : Consts) (o : Oracle) (t : Fin 2) (i : Fin 5) : Prop :=
  anyNearby o o.ballPos2 ((c.FORMATION_DEFAULT i).1 * (if t = 0 then 1 else -1))
    ((c.FORMATION_DEFAULT i).2 * (if t = 0 then 1 else -1))
    (3 / 2 * c.ROBOT_SIZE i) = false

/-! ## The claims as stated (for the corrected ones) -/

/-- Claim C2 as stated: in every phase, a sent-out robot whose timer has
aged past the sentout duration is reactivated (sent-out timer cleared)
on that tick, subject only to the proximity guard. -/
def ClaimC2 : Prop :=
  ∀ (sq : ℚ → ℚ) (c : Consts) (dl rep : Bool) (o : Oracle) (s : Sup)
    (t : Fin 2) (i : Fin 5),
    s.time < s.gameTime →
    (s.robots t i).sentoutTime ≠ 0 →
    (s.robots t i).active = false →
    s.time - (s.robots t i).sentoutTime ≥ c.SENTOUT_DURATION_MS →
    sentoutGuardFree c o t i →
    ((runStep sq c dl rep o s).robots t i).active = true ∧
      ((runStep sq c dl rep o s).robots t i).sentoutTime = 0

/-- Claim C3 as stated: in DEFAULT, ball at `x = FIELD_LENGTH/2 + 1`
with `|y| < GOAL_WIDTH/2` and more recent red touches gives team blue
the ball, phase GOALKICK and a goal-kick reset reason. -/
def ClaimC3 : Prop :=
  ∀ (sq : ℚ → ℚ) (c : Consts) (dl rep : Bool) (o : Oracle) (s : Sup),
    0 < c.FIELD_LENGTH →
    0 < c.GOAL_WIDTH →
    s.gameState = GS.stateDefault →
    s.time < s.gameTime →
    o.ballPos.1 = c.FIELD_LENGTH / 2 + 1 →
    |o.ballPos.2| < c.GOAL_WIDTH / 2 →
    touchCount s 0 > touchCount s 1 →
    |o.ballPos2.1| < c.FIELD_LENGTH / 2 - c.PENALTY_AREA_DEPTH →
    (runStep sq c dl rep o s).ballOwnership = 1 ∧
      (runStep sq c dl rep o s).gameState = GS.goalkick ∧
      (runStep sq c dl rep o s).resetReason = RR.goalkick

/-- Claim C4 as stated: feeding any partition of a byte stream through
the framer read by read (leftover prepended each time) has the same
total effect as feeding the whole stream in one read. -/
def ClaimC4 : Prop :=
  ∀ (cst : Consts) (cli : ℕ) (s : Sup) (pieces : List (List Char)),
    feedAll cst cli s pieces = callback cst s cli pieces.flatten

/-- Claim C5 as stated: an unauthorized command inside a chunk is
rejected without touching the observable state, and every later
well-formed command of the same chunk is still processed in order. -/
def ClaimC5 : Prop :=
  ∀ (cst : Consts) (cli : ℕ) (s : Sup) (g1 : List (List Char))
    (bad : List Char) (g2 : List (List Char)),
    (∀ x ∈ g1 ++ g2, goodCmd s.keys x) →
    bad ≠ [] →
    endsParen bad = true →
    hasMk bad = false →
    abortsK s.keys bad = true →
    obsState (callback cst s cli (renderAll (g1 ++ bad :: g2))).1 =
      obsState (applyList cst cli s (g1 ++ g2))

/-- Claim C8 as stated: applying the team-blue frame mirroring twice
recovers the original frame within floating tolerance (here 1/100),
for any value of the pi constant (which is at least 3). -/
def ClaimC8 : Prop :=
  ∀ pi : ℚ, pi ≥ 3 → ∀ f : FrameM,
    frameClose (1 / 100) (mirrorFrame pi (mirrorFrame pi f)) f

/-! ## Concrete instances for counterexamples and witnesses

`constants.py` is not among the sources, so any parameter valuation is
admissible; small values keep kernel evaluation cheap. -/

def sqW : ℚ → ℚ := fun _ => 0

def cW : Consts :=
  { FIELD_LENGTH := 8, FIELD_WIDTH := 5, GOAL_WIDTH := 1, GOAL_DEPTH := 1 / 2,
    PENALTY_AREA_DEPTH := 1, PENALTY_AREA_WIDTH := 2, WALL_THICKNESS := 1 / 50,
    CORNER_LENGTH := 1 / 2, KICKOFF_BORDER := 1 / 2, DEADLOCK_THRESHOLD := 2 / 5,
    ROBOT_SIZE := fun _ => 1 / 2, FORMATION_DEFAULT := fun i => ((i : ℚ) + 10, 20),
    PERIOD_MS := 50, FALL_TIME_MS := 150, SENTOUT_DURATION_MS := 200,
    IOPA_TIME_LIMIT_MS := 100, GK_NIPA_TIME_LIMIT_MS := 100,
    KICKOFF_TIME_LIMIT_MS := 300, GOALKICK_TIME_LIMIT_MS := 300,
    CORNERKICK_TIME_LIMIT_MS := 300, PENALTYKICK_TIME_LIMIT_MS := 300,
    DEADLOCK_DURATION_MS := 400, PA_THRESHOLD_A := 1, PA_THRESHOLD_D := 2,
    NUM_COMMENTS := 3 }

def keysW : Fin 4 → Option (List Char) := fun r =>
  if r = 0 then some ("RK".toList)
  else if r = 1 then some ("BK".toList)
  else if r = 2 then some ("CK".toList)
  else some ("PK".toList)

def rW : RobotSt :=
  { active := true, touch := false, fallTime := 1000, sentoutTime := 0,
    niopaTime := 1000, ipaTime := 1000 }

/-- A robot record at time zero with a fresh fall timer (for C7). -/
def rFallW : RobotSt :=
  { active := true, touch := false, fallTime := 0, sentoutTime := 0,
    niopaTime := 0, ipaTime := 0 }

/-- A mid-match state in the KICKOFF phase whose red robot 1 was sent
out at t = 100 (now t = 1000). -/
def sWk : Sup :=
  { keys := keysW,
    roleClient := fun _ => none,
    ready := [false, false, false, false],
    comments := [], report := none, log := [], out := [],
    time := 1000, gameTime := 100000, score := fun _ => 0,
    halfPassed := false, finished := false, resetReason := RR.rrNone,
    gameState := GS.kickoff, ballOwnership := 0,
    robots := fun t i =>
      if t = 0 ∧ i = 1 then { rW with active := false, sentoutTime := 100 } else rW,
    recentTouch := fun _ _ => false,
    ballPosition := (0, 0),
    kickoffTime := 900, goalkickTime := 0, cornerkickTime := 0,
    penaltykickTime := 0, deadlockTime := 1000 }

/-- The same state in the DEFAULT phase. -/
def sWd : Sup := { sWk with gameState := GS.stateDefault }

/-- The DEFAULT-phase state with one recent red touch (for C3). -/
def sWg : Sup :=
  { sWd with recentTouch := fun t i => decide (t = 0 ∧ i = 0) }

/-- A quiet tick: everybody standing, in the field, away from every
penalty area and formation slot; ball at the centre, moving. -/
def oW : Oracle :=
  { touches := fun _ _ => false,
    posture := fun t i =>
      { x := if t = 0 then -2 else 2, y := (i : ℚ) / 2 - 1, th := 0, standing := true },
    ballPos := (0, 0), ballPos2 := (0, 0), ballSpeed := 1 }

/-- The quiet tick with the ball one unit beyond the goal line (for C3). -/
def oWg : Oracle := { oW with ballPos := (5, 0) }

/-- A concrete canonical frame (for C8). -/
def fW : FrameM :=
  { time := 0, score := (2, 1), resetReason := RR.rrNone,
    gameState := GS.stateDefault, ballOwnership := false, halfPassed := false,
    own := fun _ => { x := 1, y := 1, th := 0, active := true, touch := false },
    opp := fun _ => { x := -1, y := 2, th := 0, active := true, touch := true },
    ball := (0, 0) }

/-! ## Framing lemmas -/

theorem startsW_marker_append (t : List Char) : startsW marker (marker ++ t) = true := by
  simp [marker, startsW]

theorem splitMk_marker_cons (t acc : List Char) :
    splitMk (marker ++ t) acc = acc :: splitMk t [] := rfl

theorem splitMk_not_marker (ch : Char) (cs acc : List Char)
    (h : startsW marker (ch :: cs) = false) :
    splitMk (ch :: cs) acc = splitMk cs (acc ++ [ch]) := by
  rw [splitMk.eq_def]
  split
  · rename_i heq
    simp at heq
  · rename_i rest heq
    rw [heq] at h
    simp [marker, startsW] at h
  · rename_i hno heq
    injection heq with h1 h2
    subst h1
    subst h2
    rfl

theorem startsW_marker_mid (s rest : List Char) (hs : s ≠ [])
    (h : hasMk s = false) : startsW marker (s ++ (marker ++ rest)) = false := by
  rcases s with _ | ⟨c1, s⟩
  · exact absurd rfl hs
  rcases s with _ | ⟨c2, s⟩
  · simp [marker, startsW, show (('i' : Char) == 'a') = false from by decide]
  rcases s with _ | ⟨c3, s⟩
  · simp [marker, startsW, show (('w' : Char) == 'a') = false from by decide]
  rcases s with _ | ⟨c4, s⟩
  · simp [marker, startsW, show (('c' : Char) == 'a') = false from by decide]
  rcases s with _ | ⟨c5, s⟩
  · simp [marker, startsW, show (('.' : Char) == 'a') = false from by decide]
  simp only [hasMk] at h
  obtain ⟨h1, -⟩ := Bool.or_eq_false_iff.mp h
  simp only [marker, startsW, List.cons_append, Bool.and_eq_false_iff] at h1 ⊢
  rcases h1 with h1 | h1 | h1 | h1 | h1 | h1
  · exact Or.inl h1
  · exact Or.inr (Or.inl h1)
  · exact Or.inr (Or.inr (Or.inl h1))
  · exact Or.inr (Or.inr (Or.inr (Or.inl h1)))
  · exact Or.inr (Or.inr (Or.inr (Or.inr (Or.inl h1))))
  · simp [startsW] at h1

theorem splitMk_free_append (b rest acc : List Char) (hb : hasMk b = false) :
    splitMk (b ++ (marker ++ rest)) acc = (acc ++ b) :: splitMk rest [] := by
  induction b generalizing acc with
  | nil =>
    simp [splitMk_marker_cons]
  | cons ch cs ih =>
    simp only [hasMk] at hb
    obtain ⟨h1, h2⟩ := Bool.or_eq_false_iff.mp hb
    have hstep : startsW marker ((ch :: cs) ++ (marker ++ rest)) = false :=
      startsW_marker_mid (ch :: cs) rest (by simp) hb
    rw [List.cons_append, splitMk_not_marker ch (cs ++ (marker ++ rest)) acc
      (by rw [← List.cons_append]; exact hstep), ih (acc ++ [ch]) h2]
    simp

theorem splitMk_free (b acc : List Char) (hb : hasMk b = false) :
    splitMk b acc = [acc ++ b] := by
  induction b generalizing acc with
  | nil => simp [splitMk]
  | cons ch cs ih =>
    simp only [hasMk] at hb
    obtain ⟨h1, h2⟩ := Bool.or_eq_false_iff.mp hb
    rw [splitMk_not_marker ch cs acc h1, ih (acc ++ [ch]) h2]
    simp

theorem splitMk_body_renderAll (cfirst : List Char) (cmds : List (List Char))
    (h1 : hasMk cfirst = false) (h : ∀ x ∈ cmds, hasMk x = false) :
    splitMk (cfirst ++ renderAll cmds) [] = cfirst :: cmds := by
  induction cmds generalizing cfirst with
  | nil =>
    rw [show renderAll [] = [] from rfl, List.append_nil, splitMk_free cfirst [] h1]
    rfl
  | cons c rest ih =>
    rw [show renderAll (c :: rest) = marker ++ (c ++ renderAll rest) from by
      simp [renderAll]]
    rw [splitMk_free_append cfirst (c ++ renderAll rest) [] h1]
    rw [ih c (h c (by simp)) (fun x hx => h x (by simp [hx]))]
    rfl

theorem splitMk_renderAll_cons (c : List Char) (cmds : List (List Char))
    (hc : hasMk c = false) (h : ∀ x ∈ cmds, hasMk x = false) :
    splitMk (renderAll (c :: cmds)) [] = [] :: c :: cmds := by
  rw [show renderAll (c :: cmds) = marker ++ (c ++ renderAll cmds) from by
    simp [renderAll]]
  rw [splitMk_marker_cons, splitMk_body_renderAll c cmds hc h]

theorem splitMk_renderAll (L : List (List Char)) (hL : L ≠ [])
    (h : ∀ x ∈ L, hasMk x = false) :
    splitMk (renderAll L) [] = [] :: L := by
  cases L with
  | nil => exact absurd rfl hL
  | cons c cmds =>
    exact splitMk_renderAll_cons c cmds (h c (by simp)) (fun x hx => h x (by simp [hx]))

/-! ## Dispatch lemmas -/

theorem applyCmd_keys (cst : Consts) (s : Sup) (cli : ℕ) (cmd : List Char) :
    (applyCmd cst s cli cmd).1.keys = s.keys := by
  simp only [applyCmd]
  split_ifs <;> rfl

theorem applyCmd_score (cst : Consts) (s : Sup) (cli : ℕ) (cmd : List Char) :
    (applyCmd cst s cli cmd).1.score = s.score := by
  simp only [applyCmd]
  split_ifs <;> rfl

theorem applyCmd_snd (cst : Consts) (s : Sup) (cli : ℕ) (cmd : List Char) :
    (applyCmd cst s cli cmd).2 = abortsK s.keys cmd := by
  simp only [applyCmd, abortsK]
  split_ifs <;> simp_all

theorem applyList_cons (cst : Consts) (cli : ℕ) (s : Sup) (c : List Char)
    (rest : List (List Char)) :
    applyList cst cli s (c :: rest) = applyList cst cli (applyCmd cst s cli c).1 rest := rfl

theorem applyList_keys (cst : Consts) (cli : ℕ) :
    ∀ (cmds : List (List Char)) (s : Sup), (applyList cst cli s cmds).keys = s.keys := by
  intro cmds
  induction cmds with
  | nil => intro s; rfl
  | cons c rest ih =>
    intro s
    rw [applyList_cons, ih, applyCmd_keys]

theorem applyList_append (cst : Consts) (cli : ℕ) (s : Sup) (a b : List (List Char)) :
    applyList cst cli s (a ++ b) = applyList cst cli (applyList cst cli s a) b := by
  simp [applyList, List.foldl_append]

theorem processFrags_score (cst : Consts) (cli : ℕ) :
    ∀ (frags : List (List Char)) (s : Sup) (unp : List Char),
      (processFrags cst cli s frags unp).1.score = s.score := by
  intro frags
  induction frags with
  | nil => intro s unp; rfl
  | cons f rest ih =>
    intro s unp
    simp only [processFrags]
    split_ifs with h1 h2 hp
    · exact ih s unp
    · exact ih s (unp ++ marker ++ f)
    · exact applyCmd_score cst s cli f
    · rw [ih]
      exact applyCmd_score cst s cli f

theorem callback_score (cst : Consts) (s : Sup) (cli : ℕ) (msg : List Char) :
    (callback cst s cli msg).1.score = s.score := by
  unfold callback
  split_ifs
  · rfl
  · exact processFrags_score cst cli (splitMk msg []) s []

theorem processFrags_good_append (cst : Consts) (cli : ℕ) :
    ∀ (g1 rest : List (List Char)) (s : Sup) (unp : List Char),
      (∀ x ∈ g1, x ≠ [] ∧ endsParen x = true ∧ abortsK s.keys x = false) →
      processFrags cst cli s (g1 ++ rest) unp =
        processFrags cst cli (applyList cst cli s g1) rest unp := by
  intro g1
  induction g1 with
  | nil => intro rest s unp _; rfl
  | cons c g ih =>
    intro rest s unp h
    obtain ⟨hc1, hc2, hc3⟩ := h c (by simp)
    simp only [List.cons_append, processFrags]
    rw [if_neg hc1, if_neg (by rw [hc2]; simp)]
    have hsnd : (applyCmd cst s cli c).2 = false := by rw [applyCmd_snd]; exact hc3
    simp only [hsnd, Bool.false_eq_true, if_false]
    rw [applyList_cons]
    exact ih rest (applyCmd cst s cli c).1 unp
      (fun x hx => by
        obtain ⟨p1, p2, p3⟩ := h x (by simp [hx])
        exact ⟨p1, p2, by rw [applyCmd_keys]; exact p3⟩)

theorem processFrags_good (cst : Consts) (cli : ℕ) (cmds : List (List Char))
    (s : Sup) (unp : List Char)
    (h : ∀ x ∈ cmds, x ≠ [] ∧ endsParen x = true ∧ abortsK s.keys x = false) :
    processFrags cst cli s cmds unp = (applyList cst cli s cmds, unp) := by
  rw [show cmds = cmds ++ [] from by simp,
    processFrags_good_append cst cli cmds [] s unp h]
  simp [processFrags]

theorem callback_renderAll (cst : Consts) (cli : ℕ) (s : Sup)
    (cmds : List (List Char)) (h : ∀ x ∈ cmds, goodCmd s.keys x) :
    callback cst s cli (renderAll cmds) = (applyList cst cli s cmds, []) := by
  cases cmds with
  | nil => rfl
  | cons c rest =>
    have hsw : startsW marker (renderAll (c :: rest)) = true := by
      rw [show renderAll (c :: rest) = marker ++ (c ++ renderAll rest) from by
        simp [renderAll]]
      exact startsW_marker_append _
    unfold callback
    rw [if_neg (by simp [hsw])]
    rw [splitMk_renderAll (c :: rest) (by simp)
      (fun x hx => ((h x hx).2.2.1))]
    simp only [processFrags, if_pos rfl]
    exact processFrags_good cst cli (c :: rest) s []
      (fun x hx => ⟨(h x hx).1, (h x hx).2.1, (h x hx).2.2.2⟩)

theorem feedAll_renderAll (cst : Consts) (cli : ℕ) :
    ∀ (chunks : List (List (List Char))) (s : Sup),
      (∀ x ∈ chunks.flatten, goodCmd s.keys x) →
      feedAll cst cli s (chunks.map renderAll) =
        (applyList cst cli s chunks.flatten, []) := by
  intro chunks
  induction chunks with
  | nil => intro s _; rfl
  | cons ch rest ih =>
    intro s h
    have h1 : callback cst s cli ([] ++ renderAll ch) = (applyList cst cli s ch, []) := by
      rw [List.nil_append]
      exact callback_renderAll cst cli s ch (fun x hx => h x (by simp [hx]))
    show (List.map renderAll (ch :: rest)).foldl _ (s, []) = _
    rw [List.map_cons, List.foldl_cons]
    rw [show callback cst (s, []).1 cli ((s, []).2 ++ renderAll ch)
      = (applyList cst cli s ch, []) from h1]
    have h2 := ih (applyList cst cli s ch)
      (fun x hx => by
        have := h x (by simp [hx])
        unfold goodCmd at this ⊢
        rwa [applyList_keys])
    rw [show (List.map renderAll rest).foldl
        (fun (p : Sup × List Char) piece => callback cst p.1 cli (p.2 ++ piece))
        (applyList cst cli s ch, [])
      = feedAll cst cli (applyList cst cli s ch) (List.map renderAll rest) from rfl]
    rw [h2, List.flatten_cons, applyList_append]

theorem applyCmd_abort (cst : Consts) (s : Sup) (cli : ℕ) (cmd : List Char)
    (h : abortsK s.keys cmd = true) :
    (applyCmd cst s cli cmd).1 =
      { s with
        roleClient := fun r => if r = getRoleK s.keys cmd then some cli
          else s.roleClient r,
        log := s.log ++ [cmd] } := by
  simp only [applyCmd, abortsK] at h ⊢
  split_ifs at h ⊢ <;> first | rfl | simp_all

theorem callback_abort_mid (cst : Consts) (cli : ℕ) (s : Sup)
    (g1 : List (List Char)) (bad : List Char) (g2 : List (List Char))
    (hg : ∀ x ∈ g1, goodCmd s.keys x)
    (hb1 : bad ≠ []) (hb2 : endsParen bad = true) (hb3 : hasMk bad = false)
    (hb4 : abortsK s.keys bad = true)
    (hg2 : ∀ x ∈ g2, hasMk x = false) :
    callback cst s cli (renderAll (g1 ++ bad :: g2)) =
      ({ applyList cst cli s g1 with
          roleClient := fun r => if r = getRoleK s.keys bad then some cli
            else (applyList cst cli s g1).roleClient r,
          log := (applyList cst cli s g1).log ++ [bad] }, []) := by
  have hall : ∀ x ∈ g1 ++ bad :: g2, hasMk x = false := by
    intro x hx
    rcases List.mem_append.mp hx with hx | hx
    · exact (hg x hx).2.2.1
    · rcases List.mem_cons.mp hx with hx | hx
      · rw [hx]; exact hb3
      · exact hg2 x hx
  have hne : g1 ++ bad :: g2 ≠ [] := by
    intro hcontra
    exact absurd (List.append_eq_nil.mp hcontra).2 (by simp)
  have hsw : startsW marker (renderAll (g1 ++ bad :: g2)) = true := by
    rcases hL : g1 ++ bad :: g2 with _ | ⟨c, rest⟩
    · exact absurd hL hne
    · rw [show renderAll (c :: rest) = marker ++ (c ++ renderAll rest) from by
        simp [renderAll]]
      exact startsW_marker_append _
  unfold callback
  rw [if_neg (by simp [hsw])]
  rw [splitMk_renderAll (g1 ++ bad :: g2) hne hall]
  rw [show processFrags cst cli s ([] :: (g1 ++ bad :: g2)) [] =
    processFrags cst cli s (g1 ++ bad :: g2) [] from by simp [processFrags]]
  rw [processFrags_good_append cst cli g1 (bad :: g2) s []
    (fun x hx => ⟨(hg x hx).1, (hg x hx).2.1, (hg x hx).2.2.2⟩)]
  have hc2 : ¬ (endsParen bad = false) := by rw [hb2]; simp
  simp only [processFrags]
  rw [if_neg hb1, if_neg hc2]
  have hb4b : abortsK (applyList cst cli s g1).keys bad = true := by
    rw [applyList_keys]; exact hb4
  have hsnd : (applyCmd cst (applyList cst cli s g1) cli bad).2 = true := by
    rw [applyCmd_snd]; exact hb4b
  simp only [hsnd, if_true]
  rw [applyCmd_abort cst (applyList cst cli s g1) cli bad hb4b, applyList_keys]

/-! ## Claim C4 -/

/-- C4 (counterexample): the claim "every partition of a command string
is processed identically to a single read" fails when a read boundary
falls inside the `aiwc.` marker: `"aiwc" + ".ready(\"RK\")"` is dropped
entirely while the single read processes the command. -/
theorem c4_counterexample : ¬ ClaimC4 := by
  intro h
  have h2 := h cW 7 sWk ["aiwc".toList, ".ready(\"RK\")".toList]
  exact absurd (congrArg (fun p => p.1.ready) h2) (by decide)

/-- C4 (amended): when every read boundary falls at a command boundary
and every transmitted command is nonempty, `)`-terminated, free of an
embedded marker and non-aborting (authorized), feeding the reads one at
a time through `callback` with the leftover threading of `TcpServer.spin`
processes exactly the commands of the whole stream, in order, with the
same resulting state and an empty leftover both ways. -/
theorem c4_framer_split_invariance (cst : Consts) (cli : ℕ) (s : Sup)
    (chunks : List (List (List Char)))
    (h : ∀ x ∈ chunks.flatten, goodCmd s.keys x) :
    feedAll cst cli s (chunks.map renderAll) =
      callback cst s cli (renderAll chunks.flatten) := by
  rw [feedAll_renderAll cst cli chunks s h,
    callback_renderAll cst cli s chunks.flatten h]

/-- C4 witness: a two-read split at a command boundary. -/
theorem c4_witness :
    (∀ x ∈ ([[("ready(\"RK\")".toList)], [("get_info(\"BK\")".toList)]] :
        List (List (List Char))).flatten, goodCmd sWk.keys x) ∧
    feedAll cW 7 sWk
        (([[("ready(\"RK\")".toList)], [("get_info(\"BK\")".toList)]] :
          List (List (List Char))).map renderAll) =
      callback cW sWk 7
        (renderAll ([[("ready(\"RK\")".toList)], [("get_info(\"BK\")".toList)]] :
          List (List (List Char))).flatten) :=
  ⟨by decide, c4_framer_split_invariance cW 7 sWk _ (by decide)⟩

/-! ## Claim C5 -/

/-- C5 (counterexample): an unauthorized `commentate` from team red's
key followed by a well-formed `ready` in the same chunk: the early
`return` drops the `ready`, so the claimed "later commands are still
processed" fails. -/
theorem c5_counterexample : ¬ ClaimC5 := by
  intro h
  have h2 := h cW 7 sWk [] ("commentate(\"RK\",\"hi\")".toList)
    [("ready(\"RK\")".toList)] (by decide) (by decide) (by decide) (by decide)
    (by decide)
  exact absurd h2 (by decide)

/-- C5 (amended): commands before the unauthorized one are processed in
order; the unauthorized command itself only rebinds its session role and
is logged, mutating nothing else; every complete command after it in the
same chunk is discarded, not processed. -/
theorem c5_abort_stops_chunk (cst : Consts) (cli : ℕ) (s : Sup)
    (g1 : List (List Char)) (bad : List Char) (g2 : List (List Char))
    (hg : ∀ x ∈ g1, goodCmd s.keys x)
    (hb1 : bad ≠ []) (hb2 : endsParen bad = true) (hb3 : hasMk bad = false)
    (hb4 : abortsK s.keys bad = true)
    (hg2 : ∀ x ∈ g2, hasMk x = false) :
    callback cst s cli (renderAll (g1 ++ bad :: g2)) =
      ({ applyList cst cli s g1 with
          roleClient := fun r => if r = getRoleK s.keys bad then some cli
            else (applyList cst cli s g1).roleClient r,
          log := (applyList cst cli s g1).log ++ [bad] }, []) :=
  callback_abort_mid cst cli s g1 bad g2 hg hb1 hb2 hb3 hb4 hg2

/-- C5 witness: one good command, then the unauthorized one, then a
discarded one. -/
theorem c5_witness :
    ((∀ x ∈ [("ready(\"BK\")".toList)], goodCmd sWk.keys x) ∧
      ("commentate(\"RK\",\"hi\")".toList) ≠ [] ∧
      endsParen ("commentate(\"RK\",\"hi\")".toList) = true ∧
      hasMk ("commentate(\"RK\",\"hi\")".toList) = false ∧
      abortsK sWk.keys ("commentate(\"RK\",\"hi\")".toList) = true ∧
      (∀ x ∈ [("ready(\"RK\")".toList)], hasMk x = false)) ∧
    callback cW sWk 7
        (renderAll ([("ready(\"BK\")".toList)] ++
          ("commentate(\"RK\",\"hi\")".toList) :: [("ready(\"RK\")".toList)])) =
      ({ applyList cW 7 sWk [("ready(\"BK\")".toList)] with
          roleClient := fun r =>
            if r = getRoleK sWk.keys ("commentate(\"RK\",\"hi\")".toList) then some 7
            else (applyList cW 7 sWk [("ready(\"BK\")".toList)]).roleClient r,
          log := (applyList cW 7 sWk [("ready(\"BK\")".toList)]).log ++
            [("commentate(\"RK\",\"hi\")".toList)] }, []) :=
  ⟨⟨by decide, by decide, by decide, by decide, by decide, by decide⟩,
    c5_abort_stops_chunk cW 7 sWk _ _ _ (by decide) (by decide) (by decide)
      (by decide) (by decide) (by decide)⟩

/-! ## Claim C1 -/

/-- C1: a command with an unregistered key is *not* dropped.  `get_role`
reports the error but returns `-1`, and the `ready` branch then executes
`self.ready[-1] = True`, which by Python's negative indexing sets the
*reporter's* ready flag.  The concrete run: key `"ZZ"` matches no role,
yet processing `aiwc.ready("ZZ")` flips `ready[3]`. -/
theorem c1_unknown_key_ready_side_effect :
    getRoleK sWk.keys ("ready(\"ZZ\")".toList) = -1 ∧
    sWk.ready = [false, false, false, false] ∧
    (callback cW sWk 7 ("aiwc.ready(\"ZZ\")".toList)).1.ready =
      [false, false, false, true] := by
  decide

/-! ## Claim C10 -/

/-- C10: a `get_info` command is answered with the info object built for
team red — `role_info[TEAM_RED]`, including team red's authentication
key — regardless of which key the command carries, and never aborts. -/
theorem c10_get_info_always_red (cst : Consts) (s : Sup) (cli : ℕ)
    (cmd : List Char) (h : startsW ("get_info(".toList) cmd = true) :
    (applyCmd cst s cli cmd).1.out =
      s.out ++ [Eff.send cli (OutMsg.info 0 (s.keys 0))] ∧
    (applyCmd cst s cli cmd).2 = false := by
  unfold applyCmd
  rw [if_pos h]
  exact ⟨rfl, rfl⟩

/-- C10 witness: team blue's key asks; team red's info (with red's key)
is sent. -/
theorem c10_witness :
    startsW ("get_info(".toList) ("get_info(\"BK\")".toList) = true ∧
    ((applyCmd cW sWk 7 ("get_info(\"BK\")".toList)).1.out =
      sWk.out ++ [Eff.send 7 (OutMsg.info 0 (sWk.keys 0))] ∧
      (applyCmd cW sWk 7 ("get_info(\"BK\")".toList)).2 = false) :=
  ⟨by decide, c10_get_info_always_red cW sWk 7 _ (by decide)⟩

/-! ## Claim C7 -/

/-- C7: a continuously fallen robot (standing never true since the tick
that recorded `fall_time`) is deactivated and sent to the foul zone
exactly on the first tick whose time has aged `FALL_TIME_MS` past its
fall timer: on every earlier tick its record is untouched, and on that
tick it is deactivated with `sentout_time` stamped (and the foul-zone
teleport issued). -/
theorem c7_fall_deactivation_exact (c : Consts) (t0 P : ℤ) (r0 : RobotSt)
    (hact : r0.active = true) (k : ℕ)
    (hk : r0.fallTime + c.FALL_TIME_MS ≤ t0 + (k : ℤ) * P)
    (hprev : ∀ i < k, t0 + (i : ℤ) * P < r0.fallTime + c.FALL_TIME_MS) :
    (∀ j ≤ k, fallIter c t0 P r0 j = r0) ∧
    (fallStep1 c (t0 + (k : ℤ) * P) false (fallIter c t0 P r0 k)).2 = true ∧
    (fallIter c t0 P r0 (k + 1)).active = false ∧
    (fallIter c t0 P r0 (k + 1)).sentoutTime = t0 + (k : ℤ) * P := by
  have hstay : ∀ j, j ≤ k → fallIter c t0 P r0 j = r0 := by
    intro j
    induction j with
    | zero => intro _; rfl
    | succ m ih =>
      intro hj
      have hmk : m < k := Nat.lt_of_succ_le hj
      have hcond : ¬(r0.active = true ∧ t0 + (m : ℤ) * P - r0.fallTime ≥ c.FALL_TIME_MS) := by
        rintro ⟨-, hge⟩
        have := hprev m hmk
        omega
      rw [show fallIter c t0 P r0 (m + 1) =
        (fallStep1 c (t0 + (m : ℤ) * P) false (fallIter c t0 P r0 m)).1 from rfl]
      rw [ih (Nat.le_of_succ_le hj)]
      unfold fallStep1
      rw [if_neg hcond]
      simp
  have hfire : (fallStep1 c (t0 + (k : ℤ) * P) false (fallIter c t0 P r0 k)).2 = true := by
    rw [hstay k le_rfl]
    unfold fallStep1
    rw [if_pos ⟨hact, by omega⟩]
  refine ⟨hstay, hfire, ?_, ?_⟩
  · rw [show fallIter c t0 P r0 (k + 1) =
      (fallStep1 c (t0 + (k : ℤ) * P) false (fallIter c t0 P r0 k)).1 from rfl]
    rw [hstay k le_rfl]
    unfold fallStep1
    rw [if_pos ⟨hact, by omega⟩]
  · rw [show fallIter c t0 P r0 (k + 1) =
      (fallStep1 c (t0 + (k : ℤ) * P) false (fallIter c t0 P r0 k)).1 from rfl]
    rw [hstay k le_rfl]
    unfold fallStep1
    rw [if_pos ⟨hact, by omega⟩]

/-- C7 witness: `FALL_TIME_MS = 150`, period 50, fall timer recorded at
time 0: unchanged through ticks 0, 1, 2; deactivated at tick 3 (t = 150). -/
theorem c7_witness :
    (rFallW.active = true ∧
      rFallW.fallTime + cW.FALL_TIME_MS ≤ 0 + (3 : ℤ) * 50 ∧
      (∀ i : ℕ, i < 3 → 0 + (i : ℤ) * 50 < rFallW.fallTime + cW.FALL_TIME_MS)) ∧
    ((∀ j ≤ 3, fallIter cW 0 50 rFallW j = rFallW) ∧
      (fallStep1 cW (0 + (3 : ℤ) * 50) false (fallIter cW 0 50 rFallW 3)).2 = true ∧
      (fallIter cW 0 50 rFallW (3 + 1)).active = false ∧
      (fallIter cW 0 50 rFallW (3 + 1)).sentoutTime = 0 + (3 : ℤ) * 50) :=
  ⟨⟨by decide, by decide, by decide⟩,
    c7_fall_deactivation_exact cW 0 50 rFallW (by decide) 3 (by decide) (by decide)⟩

/-! ## Claim C8 -/

/-- The coordinate mirroring composed with itself shifts only the
heading, by exactly `2 pi`. -/
theorem mirrorC_mirrorC (pi : ℚ) (rc : RCoord) :
    mirrorC pi (mirrorC pi rc) = { rc with th := rc.th + 2 * pi } := by
  simp [mirrorC, RCoord.mk.injEq]
  ring

/-- C8 (counterexample): the double mirroring does not recover the frame
within tolerance: a heading comes back offset by `2 pi` (6 when pi = 3),
far outside the 1/100 tolerance. -/
theorem c8_counterexample : ¬ ClaimC8 := by
  intro h
  have h2 := h 3 (by norm_num) fW
  have h4 := (h2.2.2.2.2.2.2.1 0).2.2.1
  rw [show ((mirrorFrame 3 (mirrorFrame 3 fW)).own 0).th = 6 from by
    norm_num [mirrorFrame, mirrorC, fW]] at h4
  rw [show (fW.own 0).th = 0 from rfl] at h4
  norm_num at h4

/-- C8 (amended): applying the team-blue mirroring twice recovers every
frame field exactly — score pair, reset reason, phase, ownership flag,
half flag, coordinates and ball — except the headings, which come back
offset by exactly `2 pi` (i.e. equal only modulo a full turn, because
`generate_frame` adds pi without renormalising). -/
theorem c8_double_mirror_offsets_heading (pi : ℚ) (f : FrameM) :
    (mirrorFrame pi (mirrorFrame pi f)).time = f.time ∧
    (mirrorFrame pi (mirrorFrame pi f)).score = f.score ∧
    (mirrorFrame pi (mirrorFrame pi f)).resetReason = f.resetReason ∧
    (mirrorFrame pi (mirrorFrame pi f)).gameState = f.gameState ∧
    (mirrorFrame pi (mirrorFrame pi f)).ballOwnership = f.ballOwnership ∧
    (mirrorFrame pi (mirrorFrame pi f)).halfPassed = f.halfPassed ∧
    (∀ i, (mirrorFrame pi (mirrorFrame pi f)).own i =
      { f.own i with th := (f.own i).th + 2 * pi }) ∧
    (∀ i, (mirrorFrame pi (mirrorFrame pi f)).opp i =
      { f.opp i with th := (f.opp i).th + 2 * pi }) ∧
    (mirrorFrame pi (mirrorFrame pi f)).ball = f.ball := by
  refine ⟨rfl, by simp [mirrorFrame], ?_, rfl, by simp [mirrorFrame], rfl,
    ?_, ?_, by simp [mirrorFrame]⟩
  · cases hr : f.resetReason <;>
      simp [mirrorFrame, blueReason, SCORE_RED_TEAM, SCORE_BLUE_TEAM, hr]
  · intro i
    exact mirrorC_mirrorC pi (f.own i)
  · intro i
    exact mirrorC_mirrorC pi (f.opp i)

/-- `generate_frame` for team blue is exactly the mirroring of the frame
generated for team red (supporting lemma tying `mirrorFrame` to the
source's team-blue branch). -/
theorem FrameM_ext {a b : FrameM} (h1 : a.time = b.time) (h2 : a.score = b.score)
    (h3 : a.resetReason = b.resetReason) (h4 : a.gameState = b.gameState)
    (h5 : a.ballOwnership = b.ballOwnership) (h6 : a.halfPassed = b.halfPassed)
    (h7 : a.own = b.own) (h8 : a.opp = b.opp) (h9 : a.ball = b.ball) : a = b := by
  cases a
  cases b
  simp_all

theorem genFrame_blue_eq_mirror (pi : ℚ) (s : Sup) (o : Oracle) (tNow : ℚ)
    (rr : Option RR) :
    genFrame pi 1 s o tNow rr = mirrorFrame pi (genFrame pi 0 s o tNow rr) := by
  have hb : (genFrame pi 1 s o tNow rr).ballOwnership =
      (mirrorFrame pi (genFrame pi 0 s o tNow rr)).ballOwnership := by
    show decide (s.ballOwnership = 1) = !decide (s.ballOwnership = 0)
    rcases s.ballOwnership with ⟨v, hv⟩
    interval_cases v <;> rfl
  apply FrameM_ext <;> first | rfl | exact hb

/-! ## Claim C6 -/

theorem teamStats_go (sq : ℚ → ℚ) (region : RobotObs → Bool) (ball : ℚ × ℚ) :
    ∀ (l : List RobotObs) (n : ℕ) (d : ℚ),
      List.foldl
        (fun (acc : ℕ × ℚ) r =>
          if region r then
            (acc.1 + 1,
             acc.2 + sq ((r.x - ball.1) * (r.x - ball.1) + (r.y - ball.2) * (r.y - ball.2)))
          else acc) (n, d) l
      = (n + specCount region l, d + ((l.filter region).map (specDist sq ball)).sum) := by
  intro l
  induction l with
  | nil => intro n d; simp [specCount]
  | cons r rest ih =>
    intro n d
    rw [List.foldl_cons]
    by_cases hr : region r
    · rw [if_pos hr, ih]
      simp only [specCount, List.filter_cons, hr, if_true, List.length_cons,
        List.map_cons, List.sum_cons, Prod.mk.injEq, specDist]
      constructor
      · omega
      · ring
    · rw [if_neg hr, ih]
      simp [specCount, List.filter_cons, hr]

theorem teamStats_eq (sq : ℚ → ℚ) (region : RobotObs → Bool) (ball : ℚ × ℚ)
    (l : List RobotObs) :
    teamStats sq region ball l =
      (specCount region l, ((l.filter region).map (specDist sq ball)).sum) := by
  unfold teamStats
  rw [teamStats_go sq region ball l 0 0]
  simp

theorem specCount_zero_sum (sq : ℚ → ℚ) (region : RobotObs → Bool)
    (ball : ℚ × ℚ) (l : List RobotObs) (h : specCount region l = 0) :
    ((l.filter region).map (specDist sq ball)).sum = 0 := by
  have h2 : l.filter region = [] := List.length_eq_zero.mp h
  rw [h2]
  simp

theorem ownDecision_eq_specTieBreak (sq : ℚ → ℚ) (region : RobotObs → Bool)
    (ball : ℚ × ℚ) (red blue : List RobotObs) :
    ownDecision (teamStats sq region ball red).1 (teamStats sq region ball blue).1
      (teamStats sq region ball red).2 (teamStats sq region ball blue).2 ball.1
      = specTieBreak sq region ball red blue := by
  rw [teamStats_eq, teamStats_eq]
  unfold ownDecision specTieBreak specAvg
  by_cases h1 : specCount region red > specCount region blue
  · simp [h1]
  by_cases h2 : specCount region blue > specCount region red
  · simp [h1, h2]
  have he : specCount region red = specCount region blue := by omega
  rcases Nat.eq_zero_or_pos (specCount region red) with hz | hp
  · have hz1 : specCount region blue = 0 := by omega
    have hs0 := specCount_zero_sum sq region ball red hz
    have hs1 := specCount_zero_sum sq region ball blue hz1
    simp [h1, h2, hz, hz1, hs0, hs1]
  · have hpos : (0 : ℚ) < (specCount region red : ℚ) := by exact_mod_cast hp
    have hcast : ((specCount region blue : ℕ) : ℚ) = (specCount region red : ℚ) := by
      exact_mod_cast he.symm
    have hiff : ∀ a b : ℚ,
        (a / (specCount region red : ℚ) < b / (specCount region blue : ℚ)) ↔ a < b := by
      intro a b
      rw [hcast]
      exact div_lt_div_iff_of_pos_right hpos
    have hiff2 : ∀ a b : ℚ,
        (a / (specCount region blue : ℚ) < b / (specCount region red : ℚ)) ↔ a < b := by
      intro a b
      rw [hcast]
      exact div_lt_div_iff_of_pos_right hpos
    by_cases hd : (((red.filter region).map (specDist sq ball)).sum <
        ((blue.filter region).map (specDist sq ball)).sum)
    · simp [h1, h2, hd, (hiff _ _).mpr hd]
    by_cases hd2 : (((blue.filter region).map (specDist sq ball)).sum <
        ((red.filter region).map (specDist sq ball)).sum)
    · simp [h1, h2, hd, hd2, hiff _ _, hiff2 _ _]
    · simp [h1, h2, hd, hd2, hiff _ _, hiff2 _ _]

/-- C6: the corner and penalty-area ownership functions both follow the
identical spec rule — more active robots in the region of concern wins;
on equal counts the smaller average distance-to-ball among those robots
wins; on an exact tie the team attacking the side of the ball's
x-coordinate (red for x > 0, blue otherwise) wins. -/
theorem c6_ownership_rule (sq : ℚ → ℚ) (c : Consts) (ball : ℚ × ℚ)
    (red blue : List RobotObs) :
    cornerOwnership sq c ball red blue =
      specTieBreak sq
        (cornerRegion c (if ball.1 > 0 then 1 else -1) (if ball.2 > 0 then 1 else -1))
        ball red blue ∧
    paOwnership sq c ball red blue =
      specTieBreak sq (paRegion c (if ball.1 > 0 then 1 else -1)) ball red blue := by
  constructor
  · unfold cornerOwnership
    exact ownDecision_eq_specTieBreak sq _ ball red blue
  · unfold paOwnership
    exact ownDecision_eq_specTieBreak sq _ ball red blue

/-! ## Run-loop projection lemmas -/

theorem touchPhase_score (o : Oracle) (s : Sup) : (touchPhase o s).score = s.score := rfl

theorem touchPhase_gameState (o : Oracle) (s : Sup) :
    (touchPhase o s).gameState = s.gameState := rfl

theorem touchPhase_time (o : Oracle) (s : Sup) : (touchPhase o s).time = s.time := rfl

theorem touchPhase_resetReason (o : Oracle) (s : Sup) :
    (touchPhase o s).resetReason = s.resetReason := rfl

theorem touchPhase_ballPosition (o : Oracle) (s : Sup) :
    (touchPhase o s).ballPosition = s.ballPosition := rfl

theorem touchPhase_ballOwnership (o : Oracle) (s : Sup) :
    (touchPhase o s).ballOwnership = s.ballOwnership := rfl

theorem fallPhase_score (c : Consts) (o : Oracle) (s : Sup) :
    (fallPhase c o s).score = s.score := rfl

theorem fallPhase_gameState (c : Consts) (o : Oracle) (s : Sup) :
    (fallPhase c o s).gameState = s.gameState := rfl

theorem fallPhase_time (c : Consts) (o : Oracle) (s : Sup) :
    (fallPhase c o s).time = s.time := rfl

theorem fallPhase_resetReason (c : Consts) (o : Oracle) (s : Sup) :
    (fallPhase c o s).resetReason = s.resetReason := rfl

theorem fallPhase_ballPosition (c : Consts) (o : Oracle) (s : Sup) :
    (fallPhase c o s).ballPosition = s.ballPosition := rfl

theorem fallPhase_ballOwnership (c : Consts) (o : Oracle) (s : Sup) :
    (fallPhase c o s).ballOwnership = s.ballOwnership := rfl

theorem fallPhase_recentTouch (c : Consts) (o : Oracle) (s : Sup) :
    (fallPhase c o s).recentTouch = s.recentTouch := rfl

theorem fieldPhase_score (c : Consts) (o : Oracle) (s : Sup) :
    (fieldPhase c o s).score = s.score := rfl

theorem fieldPhase_gameState (c : Consts) (o : Oracle) (s : Sup) :
    (fieldPhase c o s).gameState = s.gameState := rfl

theorem fieldPhase_time (c : Consts) (o : Oracle) (s : Sup) :
    (fieldPhase c o s).time = s.time := rfl

theorem fieldPhase_resetReason (c : Consts) (o : Oracle) (s : Sup) :
    (fieldPhase c o s).resetReason = s.resetReason := rfl

theorem fieldPhase_ballPosition (c : Consts) (o : Oracle) (s : Sup) :
    (fieldPhase c o s).ballPosition = s.ballPosition := rfl

theorem fieldPhase_ballOwnership (c : Consts) (o : Oracle) (s : Sup) :
    (fieldPhase c o s).ballOwnership = s.ballOwnership := rfl

theorem fieldPhase_recentTouch (c : Consts) (o : Oracle) (s : Sup) :
    (fieldPhase c o s).recentTouch = s.recentTouch := rfl

theorem niopaPhase_score (c : Consts) (o : Oracle) (s : Sup) :
    (niopaPhase c o s).score = s.score := rfl

theorem niopaPhase_gameState (c : Consts) (o : Oracle) (s : Sup) :
    (niopaPhase c o s).gameState = s.gameState := rfl

theorem niopaPhase_time (c : Consts) (o : Oracle) (s : Sup) :
    (niopaPhase c o s).time = s.time := rfl

theorem niopaPhase_resetReason (c : Consts) (o : Oracle) (s : Sup) :
    (niopaPhase c o s).resetReason = s.resetReason := rfl

theorem niopaPhase_ballPosition (c : Consts) (o : Oracle) (s : Sup) :
    (niopaPhase c o s).ballPosition = s.ballPosition := rfl

theorem niopaPhase_ballOwnership (c : Consts) (o : Oracle) (s : Sup) :
    (niopaPhase c o s).ballOwnership = s.ballOwnership := rfl

theorem niopaPhase_recentTouch (c : Consts) (o : Oracle) (s : Sup) :
    (niopaPhase c o s).recentTouch = s.recentTouch := rfl

theorem gkPhase_score (c : Consts) (o : Oracle) (s : Sup) :
    (gkPhase c o s).score = s.score := rfl

theorem gkPhase_gameState (c : Consts) (o : Oracle) (s : Sup) :
    (gkPhase c o s).gameState = s.gameState := rfl

theorem gkPhase_time (c : Consts) (o : Oracle) (s : Sup) :
    (gkPhase c o s).time = s.time := rfl

theorem gkPhase_resetReason (c : Consts) (o : Oracle) (s : Sup) :
    (gkPhase c o s).resetReason = s.resetReason := rfl

theorem gkPhase_ballPosition (c : Consts) (o : Oracle) (s : Sup) :
    (gkPhase c o s).ballPosition = s.ballPosition := rfl

theorem gkPhase_ballOwnership (c : Consts) (o : Oracle) (s : Sup) :
    (gkPhase c o s).ballOwnership = s.ballOwnership := rfl

theorem gkPhase_recentTouch (c : Consts) (o : Oracle) (s : Sup) :
    (gkPhase c o s).recentTouch = s.recentTouch := rfl

theorem sentoutPhase_score (c : Consts) (o : Oracle) (s : Sup) :
    (sentoutPhase c o s).score = s.score := rfl

theorem sentoutPhase_gameState (c : Consts) (o : Oracle) (s : Sup) :
    (sentoutPhase c o s).gameState = s.gameState := rfl

theorem sentoutPhase_time (c : Consts) (o : Oracle) (s : Sup) :
    (sentoutPhase c o s).time = s.time := rfl

theorem sentoutPhase_resetReason (c : Consts) (o : Oracle) (s : Sup) :
    (sentoutPhase c o s).resetReason = s.resetReason := rfl

theorem sentoutPhase_ballOwnership (c : Consts) (o : Oracle) (s : Sup) :
    (sentoutPhase c o s).ballOwnership = s.ballOwnership := rfl

theorem resetAll_score (s : Sup) : (resetAll s).score = s.score := rfl

theorem lockAll_score (s : Sup) (v : Bool) : (lockAll s v).score = s.score := rfl

theorem setActive_score (s : Sup) (t : Fin 2) (i : Fin 5) (v : Bool) :
    (setActive s t i v).score = s.score := rfl

theorem unlockDefault_score (s : Sup) : (unlockDefault s).score = s.score := rfl

theorem goalBranch_score_le (s : Sup) (t : Fin 2) :
    s.score t ≤ (goalBranch s).score t := by
  unfold goalBranch resetAll lockAll setActive
  dsimp only
  split_ifs <;> omega

theorem outBranch_score (s : Sup) : (outBranch s).score = s.score := by
  unfold outBranch resetAll lockAll setActive
  dsimp only
  split_ifs <;> rfl

theorem checkPA_score (c : Consts) (o : Oracle) (s : Sup) :
    (checkPA c o s).2.score = s.score := by
  unfold checkPA
  dsimp only
  split_ifs <;> rfl

theorem paResetBranch_score (bx : ℚ) (s : Sup) :
    (paResetBranch bx s).score = s.score := by
  unfold paResetBranch resetAll lockAll setActive
  dsimp only
  split_ifs <;> rfl

theorem deadlockPA_score (sq : ℚ → ℚ) (c : Consts) (o : Oracle) (s : Sup) :
    (deadlockPA sq c o s).score = s.score := by
  unfold deadlockPA
  show (paResetBranch o.ballPos2.1 _).score = s.score
  rw [paResetBranch_score]

theorem deadlockCorner_score (sq : ℚ → ℚ) (c : Consts) (o : Oracle) (s : Sup) :
    (deadlockCorner sq c o s).score = s.score := rfl

theorem deadlockGeneral_score (o : Oracle) (s : Sup) :
    (deadlockGeneral o s).score = s.score := rfl

theorem defaultBranch_score_le (sq : ℚ → ℚ) (c : Consts) (dl : Bool) (o : Oracle)
    (s : Sup) (t : Fin 2) : s.score t ≤ (defaultBranch sq c dl o s).score t := by
  unfold defaultBranch
  dsimp only
  split_ifs <;>
    simp only [sentoutPhase_score, checkPA_score, paResetBranch_score,
      deadlockPA_score, deadlockCorner_score, deadlockGeneral_score,
      outBranch_score] <;>
    first
      | exact le_refl _
      | exact goalBranch_score_le s t

theorem kickoffBranch_score (c : Consts) (s : Sup) :
    (kickoffBranch c s).score = s.score := by
  unfold kickoffBranch unlockDefault lockAll
  dsimp only
  split_ifs <;> rfl

theorem goalkickBranch_score (c : Consts) (s : Sup) :
    (goalkickBranch c s).score = s.score := by
  unfold goalkickBranch unlockDefault lockAll
  dsimp only
  split_ifs <;> rfl

theorem cornerBranch_score (c : Consts) (s : Sup) :
    (cornerBranch c s).score = s.score := by
  unfold cornerBranch unlockDefault lockAll
  dsimp only
  split_ifs <;> rfl

theorem penaltyBranch_score (c : Consts) (s : Sup) :
    (penaltyBranch c s).score = s.score := by
  unfold penaltyBranch unlockDefault lockAll
  dsimp only
  split_ifs <;> rfl

theorem halfOver_score (rep : Bool) (s : Sup) : (halfOver rep s).score = s.score := by
  unfold halfOver resetAll lockAll setActive
  dsimp only
  split_ifs <;> rfl

theorem startTick_score (o : Oracle) (s : Sup) : (startTick o s).score = s.score := rfl

theorem startTick_time (o : Oracle) (s : Sup) : (startTick o s).time = s.time := rfl

theorem startTick_gameTime (o : Oracle) (s : Sup) :
    (startTick o s).gameTime = s.gameTime := rfl

theorem startTick_gameState (o : Oracle) (s : Sup) :
    (startTick o s).gameState = s.gameState := rfl

theorem startTick_robots (o : Oracle) (s : Sup) : (startTick o s).robots = s.robots := rfl

theorem startTick_ballPosition (o : Oracle) (s : Sup) :
    (startTick o s).ballPosition = o.ballPos := rfl

theorem publishTick_score (s : Sup) : (publishTick s).score = s.score := rfl

theorem publishTick_time (s : Sup) : (publishTick s).time = s.time := rfl

theorem publishTick_gameState (s : Sup) : (publishTick s).gameState = s.gameState := rfl

theorem publishTick_resetReason (s : Sup) : (publishTick s).resetReason = RR.rrNone := rfl

theorem publishTick_robots (s : Sup) : (publishTick s).robots = s.robots := rfl

theorem publishTick_ballPosition (s : Sup) :
    (publishTick s).ballPosition = s.ballPosition := rfl

theorem preTick_score (c : Consts) (o : Oracle) (s : Sup) :
    (preTick c o s).score = s.score := rfl

theorem preTick_time (c : Consts) (o : Oracle) (s : Sup) :
    (preTick c o s).time = s.time := rfl

theorem preTick_gameState (c : Consts) (o : Oracle) (s : Sup) :
    (preTick c o s).gameState = s.gameState := rfl

theorem preTick_resetReason (c : Consts) (o : Oracle) (s : Sup) :
    (preTick c o s).resetReason = s.resetReason := rfl

theorem preTick_ballPosition (c : Consts) (o : Oracle) (s : Sup) :
    (preTick c o s).ballPosition = s.ballPosition := rfl

theorem preTick_ballOwnership (c : Consts) (o : Oracle) (s : Sup) :
    (preTick c o s).ballOwnership = s.ballOwnership := rfl

/-! ## Claim C9 -/

theorem runStep_score_le (sq : ℚ → ℚ) (c : Consts) (dl rep : Bool) (o : Oracle)
    (s : Sup) (t : Fin 2) : s.score t ≤ (runStep sq c dl rep o s).score t := by
  unfold runStep
  dsimp only
  split_ifs
  · rw [halfOver_score]
    exact le_refl _
  · have hsc : (preTick c o (publishTick (startTick o s))).score = s.score := by
      rw [preTick_score, publishTick_score, startTick_score]
    rcases hgs : (preTick c o (publishTick (startTick o s))).gameState <;>
      simp only [phaseDispatch, hgs] <;> try dsimp only
    · rw [kickoffBranch_score, hsc]
    · calc s.score t = (preTick c o (publishTick (startTick o s))).score t := by rw [hsc]
        _ ≤ _ := defaultBranch_score_le sq c dl o _ t
    · rw [goalkickBranch_score, hsc]
    · rw [cornerBranch_score, hsc]
    · rw [penaltyBranch_score, hsc]

/-- C9: neither team's score ever decreases: every started-play tick of
the run loop (goal handling, half-time and episode restarts, phase
resets and deadlock handling included) weakly increases both scores, and
command processing through `callback` never changes them at all. -/
theorem c9_score_monotone :
    (∀ (sq : ℚ → ℚ) (c : Consts) (dl rep : Bool) (o : Oracle) (s : Sup) (t : Fin 2),
      s.score t ≤ (runStep sq c dl rep o s).score t) ∧
    (∀ (cst : Consts) (s : Sup) (cli : ℕ) (msg : List Char),
      (callback cst s cli msg).1.score = s.score) :=
  ⟨runStep_score_le, fun cst s cli msg => callback_score cst s cli msg⟩

/-! ## Claims C2 and C3: the DEFAULT-only checks

The sent-out return loop and the goal handling live inside the DEFAULT
branch of the run loop (lines 1088-1184), not in the unconditional
per-tick prologue.  The lemmas below isolate both facts. -/

theorem touchPhase_robots (o : Oracle) (s : Sup) (t : Fin 2) (i : Fin 5) :
    (touchPhase o s).robots t i = { s.robots t i with touch := o.touches t i } := rfl

theorem fallPhase_robots (c : Consts) (o : Oracle) (s : Sup) (t : Fin 2) (i : Fin 5) :
    (fallPhase c o s).robots t i =
      (fallStep1 c s.time (o.posture t i).standing (s.robots t i)).1 := rfl

theorem fallStep1_inactive (c : Consts) (T : ℤ) (st : Bool) (r : RobotSt)
    (h : r.active = false) :
    ((fallStep1 c T st r).1).active = false ∧
      ((fallStep1 c T st r).1).sentoutTime = r.sentoutTime := by
  unfold fallStep1
  rw [if_neg (by simp [h])]
  split_ifs <;> exact ⟨h, rfl⟩

theorem fieldPhase_robots_inactive (c : Consts) (o : Oracle) (s : Sup) (t : Fin 2)
    (i : Fin 5) (h : (s.robots t i).active = false) :
    (fieldPhase c o s).robots t i = s.robots t i := by
  simp [fieldPhase, h]

theorem niopaPhase_robots_core (c : Consts) (o : Oracle) (s : Sup) (t : Fin 2)
    (i : Fin 5) :
    ((niopaPhase c o s).robots t i).active = (s.robots t i).active ∧
      ((niopaPhase c o s).robots t i).sentoutTime = (s.robots t i).sentoutTime := by
  simp only [niopaPhase]
  try dsimp only
  split_ifs <;> exact ⟨rfl, rfl⟩

theorem gkPhase_robots_core (c : Consts) (o : Oracle) (s : Sup) (t : Fin 2)
    (i : Fin 5) :
    ((gkPhase c o s).robots t i).active = (s.robots t i).active ∧
      ((gkPhase c o s).robots t i).sentoutTime = (s.robots t i).sentoutTime := by
  by_cases hi : i = 0
  · subst hi
    simp only [gkPhase]
    try dsimp only
    rw [if_pos trivial]
    split_ifs <;> exact ⟨rfl, rfl⟩
  · simp only [gkPhase]
    try dsimp only
    rw [if_neg hi]
    exact ⟨rfl, rfl⟩

/-- The unconditional prologue never reactivates an inactive robot and
never touches its sent-out timer. -/
theorem preTick_robot_inactive (c : Consts) (o : Oracle) (s : Sup) (t : Fin 2)
    (i : Fin 5) (h : (s.robots t i).active = false) :
    ((preTick c o s).robots t i).active = false ∧
      ((preTick c o s).robots t i).sentoutTime = (s.robots t i).sentoutTime := by
  have hA_act : ((touchPhase o s).robots t i).active = false := h
  have hA_sent : ((touchPhase o s).robots t i).sentoutTime = (s.robots t i).sentoutTime := rfl
  have hB := fallStep1_inactive c (touchPhase o s).time (o.posture t i).standing
    ((touchPhase o s).robots t i) hA_act
  have hB_act : ((fallPhase c o (touchPhase o s)).robots t i).active = false := by
    rw [fallPhase_robots]; exact hB.1
  have hB_sent : ((fallPhase c o (touchPhase o s)).robots t i).sentoutTime =
      (s.robots t i).sentoutTime := by
    rw [fallPhase_robots, hB.2, hA_sent]
  have hC := fieldPhase_robots_inactive c o (fallPhase c o (touchPhase o s)) t i hB_act
  have hD := niopaPhase_robots_core c o
    (fieldPhase c o (fallPhase c o (touchPhase o s))) t i
  have hE := gkPhase_robots_core c o
    (niopaPhase c o (fieldPhase c o (fallPhase c o (touchPhase o s)))) t i
  refine ⟨?_, ?_⟩ <;> unfold preTick
  · rw [hE.1, hD.1, hC]
    exact hB_act
  · rw [hE.2, hD.2, hC]
    exact hB_sent

theorem runStep_not_over (sq : ℚ → ℚ) (c : Consts) (dl rep : Bool) (o : Oracle)
    (s : Sup) (h : s.time < s.gameTime) :
    runStep sq c dl rep o s =
      { phaseDispatch sq c dl o (preTick c o (publishTick (startTick o s))) with
        time := (phaseDispatch sq c dl o (preTick c o (publishTick (startTick o s)))).time
          + c.PERIOD_MS } := by
  unfold runStep
  dsimp only
  rw [if_neg (show ¬((startTick o s).time ≥ (startTick o s).gameTime) from by
    rw [startTick_time, startTick_gameTime]; exact not_le.mpr h)]

theorem phaseDispatch_default (sq : ℚ → ℚ) (c : Consts) (dl : Bool) (o : Oracle)
    (s2 : Sup) (h : s2.gameState = GS.stateDefault) :
    phaseDispatch sq c dl o s2 = defaultBranch sq c dl o s2 := by
  unfold phaseDispatch
  rw [h]

theorem phaseDispatch_kickoff (sq : ℚ → ℚ) (c : Consts) (dl : Bool) (o : Oracle)
    (s2 : Sup) (h : s2.gameState = GS.kickoff) :
    phaseDispatch sq c dl o s2 = kickoffBranch c s2 := by
  unfold phaseDispatch
  rw [h]

theorem phaseDispatch_goalkick (sq : ℚ → ℚ) (c : Consts) (dl : Bool) (o : Oracle)
    (s2 : Sup) (h : s2.gameState = GS.goalkick) :
    phaseDispatch sq c dl o s2 = goalkickBranch c s2 := by
  unfold phaseDispatch
  rw [h]

theorem phaseDispatch_corner (sq : ℚ → ℚ) (c : Consts) (dl : Bool) (o : Oracle)
    (s2 : Sup) (h : s2.gameState = GS.cornerkick) :
    phaseDispatch sq c dl o s2 = cornerBranch c s2 := by
  unfold phaseDispatch
  rw [h]

theorem phaseDispatch_penalty (sq : ℚ → ℚ) (c : Consts) (dl : Bool) (o : Oracle)
    (s2 : Sup) (h : s2.gameState = GS.penaltykick) :
    phaseDispatch sq c dl o s2 = penaltyBranch c s2 := by
  unfold phaseDispatch
  rw [h]

theorem kickoffBranch_robots_sentout (c : Consts) (s : Sup) (t : Fin 2) (i : Fin 5) :
    ((kickoffBranch c s).robots t i).sentoutTime = (s.robots t i).sentoutTime := by
  unfold kickoffBranch unlockDefault lockAll
  dsimp only
  split_ifs <;> rfl

theorem goalkickBranch_robots_sentout (c : Consts) (s : Sup) (t : Fin 2) (i : Fin 5) :
    ((goalkickBranch c s).robots t i).sentoutTime = (s.robots t i).sentoutTime := by
  unfold goalkickBranch unlockDefault lockAll
  dsimp only
  split_ifs <;> rfl

theorem cornerBranch_robots_sentout (c : Consts) (s : Sup) (t : Fin 2) (i : Fin 5) :
    ((cornerBranch c s).robots t i).sentoutTime = (s.robots t i).sentoutTime := by
  unfold cornerBranch unlockDefault lockAll
  dsimp only
  split_ifs <;> rfl

theorem penaltyBranch_robots_sentout (c : Consts) (s : Sup) (t : Fin 2) (i : Fin 5) :
    ((penaltyBranch c s).robots t i).sentoutTime = (s.robots t i).sentoutTime := by
  unfold penaltyBranch unlockDefault lockAll
  dsimp only
  split_ifs <;> rfl

/-- Outside the DEFAULT phase a sent-out robot keeps its sent-out timer:
the return check does not run there. -/
theorem runStep_sentout_frozen (sq : ℚ → ℚ) (c : Consts) (dl rep : Bool) (o : Oracle)
    (s : Sup) (t : Fin 2) (i : Fin 5)
    (htime : s.time < s.gameTime)
    (hgs : s.gameState ≠ GS.stateDefault)
    (hia : (s.robots t i).active = false) :
    ((runStep sq c dl rep o s).robots t i).sentoutTime = (s.robots t i).sentoutTime := by
  rw [runStep_not_over sq c dl rep o s htime]
  dsimp only
  have hrob : (publishTick (startTick o s)).robots = s.robots := by
    rw [publishTick_robots, startTick_robots]
  have hpre := preTick_robot_inactive c o (publishTick (startTick o s)) t i
    (by rw [hrob]; exact hia)
  have hsent : ((preTick c o (publishTick (startTick o s))).robots t i).sentoutTime =
      (s.robots t i).sentoutTime := by
    rw [hpre.2, hrob]
  have hgs2 : (preTick c o (publishTick (startTick o s))).gameState = s.gameState := by
    rw [preTick_gameState, publishTick_gameState, startTick_gameState]
  rcases hcase : (preTick c o (publishTick (startTick o s))).gameState
  · rw [phaseDispatch_kickoff sq c dl o _ hcase, kickoffBranch_robots_sentout, hsent]
  · exact absurd (by rw [← hgs2, hcase]) hgs
  · rw [phaseDispatch_goalkick sq c dl o _ hcase, goalkickBranch_robots_sentout, hsent]
  · rw [phaseDispatch_corner sq c dl o _ hcase, cornerBranch_robots_sentout, hsent]
  · rw [phaseDispatch_penalty sq c dl o _ hcase, penaltyBranch_robots_sentout, hsent]

/-- When the ball sits outside both penalty-area strips, the
penalty-area rule does not fire. -/
theorem checkPA_off (c : Consts) (o : Oracle) (s : Sup)
    (h : |o.ballPos2.1| < c.FIELD_LENGTH / 2 - c.PENALTY_AREA_DEPTH) :
    checkPA c o s = (false, s) := by
  have hcond : (decide (|o.ballPos2.1| < c.FIELD_LENGTH / 2 - c.PENALTY_AREA_DEPTH) ||
      decide (|o.ballPos2.2| > c.PENALTY_AREA_WIDTH / 2)) = true := by
    simp only [Bool.or_eq_true, decide_eq_true_eq]
    exact Or.inl h
  simp only [checkPA]
  rw [if_pos hcond]

theorem sentoutTrig_true (c : Consts) (o : Oracle) (s : Sup) (t : Fin 2) (i : Fin 5)
    (h1 : (s.robots t i).sentoutTime ≠ 0)
    (h2 : s.time - (s.robots t i).sentoutTime ≥ c.SENTOUT_DURATION_MS)
    (h3 : sentoutGuardFree c o t i) :
    sentoutTrig c o s t i = true := by
  unfold sentoutGuardFree at h3
  simp only [sentoutTrig, Bool.and_eq_true, Bool.not_eq_true', beq_eq_false_iff_ne,
    ne_eq, decide_eq_true_eq]
  exact ⟨⟨h1, h2⟩, h3⟩

/-- A triggered sent-out return: the robot comes back active with a
cleared timer and a formation teleport is issued. -/
theorem sentoutPhase_robot_pos (c : Consts) (o : Oracle) (s : Sup) (t : Fin 2)
    (i : Fin 5) (ht : sentoutTrig c o s t i = true) :
    ((sentoutPhase c o s).robots t i).active = true ∧
      ((sentoutPhase c o s).robots t i).sentoutTime = 0 ∧
      Eff.teleField t i ∈ (sentoutPhase c o s).out := by
  refine ⟨?_, ?_, ?_⟩
  · show ((if sentoutTrig c o s t i then
        { s.robots t i with active := true, sentoutTime := 0 }
      else s.robots t i)).active = true
    rw [if_pos ht]
  · show ((if sentoutTrig c o s t i then
        { s.robots t i with active := true, sentoutTime := 0 }
      else s.robots t i)).sentoutTime = 0
    rw [if_pos ht]
  · show Eff.teleField t i ∈ s.out ++
      ((List.finRange 2).flatMap fun t => (List.finRange 5).filterMap fun i =>
        if sentoutTrig c o s t i then some (Eff.teleField t i) else none)
    apply List.mem_append_right
    rw [List.mem_flatMap]
    refine ⟨t, List.mem_finRange t, ?_⟩
    rw [List.mem_filterMap]
    exact ⟨i, List.mem_finRange i, by rw [if_pos ht]⟩

/-- A quiet DEFAULT tick (no goal, ball in field, penalty-area rule off,
deadlock checking disabled) reduces to the sent-out return loop. -/
theorem defaultBranch_quiet_eq (sq : ℚ → ℚ) (c : Consts) (o : Oracle) (s : Sup)
    (hng : ¬(|s.ballPosition.1| > c.FIELD_LENGTH / 2 ∧
      |s.ballPosition.2| < c.GOAL_WIDTH / 2))
    (hin : ballInField c s.ballPosition = true)
    (hpa : |o.ballPos2.1| < c.FIELD_LENGTH / 2 - c.PENALTY_AREA_DEPTH) :
    defaultBranch sq c false o s = sentoutPhase c o s := by
  have hc1 : ¬((decide (|s.ballPosition.1| > c.FIELD_LENGTH / 2) &&
      decide (|s.ballPosition.2| < c.GOAL_WIDTH / 2)) = true) := by
    simp only [Bool.and_eq_true, decide_eq_true_eq]
    exact hng
  have hc2 : ¬(ballInField c s.ballPosition = false) := by simp [hin]
  unfold defaultBranch
  dsimp only
  rw [if_neg hc1, if_neg hc2, checkPA_off c o (sentoutPhase c o s) hpa]
  dsimp only
  rw [if_neg (show ¬(false = true) by simp), if_neg (by simp)]

/-- A ball past the positive goal line scores for team red: point to
red, ownership (the kickoff taker) to blue, KICKOFF restart, scored-by
reset reason. -/
theorem goalBranch_pos (s : Sup) (hbx : s.ballPosition.1 > 0) :
    (goalBranch s).score 0 = s.score 0 + 1 ∧ (goalBranch s).score 1 = s.score 1 ∧
      (goalBranch s).ballOwnership = 1 ∧ (goalBranch s).gameState = GS.kickoff ∧
      (goalBranch s).resetReason = SCORE_RED_TEAM := by
  unfold goalBranch
  dsimp only
  simp only [if_pos hbx]
  refine ⟨?_, ?_, by trivial, by trivial, by trivial⟩
  · rw [setActive_score, lockAll_score, resetAll_score]
    show (if (0 : Fin 2) = (0 : Fin 2) then s.score 0 + 1 else s.score 0) = s.score 0 + 1
    rw [if_pos rfl]
  · rw [setActive_score, lockAll_score, resetAll_score]
    show (if (1 : Fin 2) = (0 : Fin 2) then s.score 1 + 1 else s.score 1) = s.score 1
    rw [if_neg (by decide : ¬((1 : Fin 2) = 0))]

/-- A DEFAULT tick with the ball past the positive goal line reduces to
the goal branch followed by the sent-out return loop. -/
theorem defaultBranch_goal_eq (sq : ℚ → ℚ) (c : Consts) (dl : Bool) (o : Oracle)
    (s : Sup)
    (hbx : s.ballPosition.1 > c.FIELD_LENGTH / 2)
    (hby : |s.ballPosition.2| < c.GOAL_WIDTH / 2)
    (hpa : |o.ballPos2.1| < c.FIELD_LENGTH / 2 - c.PENALTY_AREA_DEPTH)
    (hFL : 0 ≤ c.FIELD_LENGTH) :
    defaultBranch sq c dl o s = sentoutPhase c o (goalBranch s) := by
  have hpos : s.ballPosition.1 > 0 :=
    lt_of_le_of_lt (div_nonneg hFL (by norm_num)) hbx
  have hcond : (decide (|s.ballPosition.1| > c.FIELD_LENGTH / 2) &&
      decide (|s.ballPosition.2| < c.GOAL_WIDTH / 2)) = true := by
    simp only [Bool.and_eq_true, decide_eq_true_eq]
    exact ⟨lt_of_lt_of_le hbx (le_abs_self _), hby⟩
  have hrr : (sentoutPhase c o (goalBranch s)).resetReason = SCORE_RED_TEAM := by
    rw [sentoutPhase_resetReason]
    exact (goalBranch_pos s hpos).2.2.2.2
  unfold defaultBranch
  dsimp only
  rw [if_pos hcond, checkPA_off c o (sentoutPhase c o (goalBranch s)) hpa]
  dsimp only
  rw [if_neg (show ¬(false = true) by simp),
    if_neg (show ¬((sentoutPhase c o (goalBranch s)).resetReason = RR.rrNone ∧
      dl = true) from fun hc => by
        rw [hrr] at hc
        exact absurd hc.1 (by simp [SCORE_RED_TEAM]))]

/-- In the DEFAULT phase, on a quiet tick with deadlock checking
disabled, an aged sent-out robot with a free formation slot is
reactivated with a cleared timer and a formation teleport is issued. -/
theorem runStep_sentout_core (sq : ℚ → ℚ) (c : Consts) (rep : Bool) (o : Oracle)
    (s : Sup) (t : Fin 2) (i : Fin 5)
    (hgs : s.gameState = GS.stateDefault)
    (htime : s.time < s.gameTime)
    (hng : ¬(|o.ballPos.1| > c.FIELD_LENGTH / 2 ∧ |o.ballPos.2| < c.GOAL_WIDTH / 2))
    (hin : ballInField c o.ballPos = true)
    (hpa : |o.ballPos2.1| < c.FIELD_LENGTH / 2 - c.PENALTY_AREA_DEPTH)
    (hia : (s.robots t i).active = false)
    (hst : (s.robots t i).sentoutTime ≠ 0)
    (hel : s.time - (s.robots t i).sentoutTime ≥ c.SENTOUT_DURATION_MS)
    (hgd : sentoutGuardFree c o t i) :
    ((runStep sq c false rep o s).robots t i).active = true ∧
      ((runStep sq c false rep o s).robots t i).sentoutTime = 0 ∧
      Eff.teleField t i ∈ (runStep sq c false rep o s).out := by
  rw [runStep_not_over sq c false rep o s htime]
  have hrob : (publishTick (startTick o s)).robots = s.robots := by
    rw [publishTick_robots, startTick_robots]
  have hgs2 : (preTick c o (publishTick (startTick o s))).gameState = GS.stateDefault := by
    rw [preTick_gameState, publishTick_gameState, startTick_gameState]
    exact hgs
  have hbp : (preTick c o (publishTick (startTick o s))).ballPosition = o.ballPos := by
    rw [preTick_ballPosition, publishTick_ballPosition, startTick_ballPosition]
  have hpre := preTick_robot_inactive c o (publishTick (startTick o s)) t i
    (by rw [hrob]; exact hia)
  have hsent : ((preTick c o (publishTick (startTick o s))).robots t i).sentoutTime =
      (s.robots t i).sentoutTime := by
    rw [hpre.2, hrob]
  have htk : (preTick c o (publishTick (startTick o s))).time = s.time := by
    rw [preTick_time, publishTick_time, startTick_time]
  have htrig : sentoutTrig c o (preTick c o (publishTick (startTick o s))) t i = true := by
    apply sentoutTrig_true
    · rw [hsent]
      exact hst
    · rw [htk, hsent]
      exact hel
    · exact hgd
  have hQ := defaultBranch_quiet_eq sq c o (preTick c o (publishTick (startTick o s)))
    (by rw [hbp]; exact hng) (by rw [hbp]; exact hin) hpa
  rw [phaseDispatch_default sq c false o _ hgs2, hQ]
  have hP := sentoutPhase_robot_pos c o (preTick c o (publishTick (startTick o s))) t i htrig
  exact ⟨hP.1, hP.2.1, hP.2.2⟩

/-- In the DEFAULT phase, a ball past the positive goal line inside the
goal mouth is a goal for team red: red's score goes up by one, blue's is
unchanged, ownership goes to blue, the phase restarts in KICKOFF and the
reset reason is the red-scored code. -/
theorem runStep_goal_core (sq : ℚ → ℚ) (c : Consts) (dl rep : Bool) (o : Oracle)
    (s : Sup)
    (hgs : s.gameState = GS.stateDefault)
    (htime : s.time < s.gameTime)
    (hbx : o.ballPos.1 > c.FIELD_LENGTH / 2)
    (hby : |o.ballPos.2| < c.GOAL_WIDTH / 2)
    (hpa : |o.ballPos2.1| < c.FIELD_LENGTH / 2 - c.PENALTY_AREA_DEPTH)
    (hFL : 0 ≤ c.FIELD_LENGTH) :
    (runStep sq c dl rep o s).score 0 = s.score 0 + 1 ∧
      (runStep sq c dl rep o s).score 1 = s.score 1 ∧
      (runStep sq c dl rep o s).ballOwnership = 1 ∧
      (runStep sq c dl rep o s).gameState = GS.kickoff ∧
      (runStep sq c dl rep o s).resetReason = SCORE_RED_TEAM := by
  rw [runStep_not_over sq c dl rep o s htime]
  have hgs2 : (preTick c o (publishTick (startTick o s))).gameState = GS.stateDefault := by
    rw [preTick_gameState, publishTick_gameState, startTick_gameState]
    exact hgs
  have hbp : (preTick c o (publishTick (startTick o s))).ballPosition = o.ballPos := by
    rw [preTick_ballPosition, publishTick_ballPosition, startTick_ballPosition]
  have hsc : (preTick c o (publishTick (startTick o s))).score = s.score := by
    rw [preTick_score, publishTick_score, startTick_score]
  have hG := goalBranch_pos (preTick c o (publishTick (startTick o s)))
    (by rw [hbp]; exact lt_of_le_of_lt (div_nonneg hFL (by norm_num)) hbx)
  have hD := defaultBranch_goal_eq sq c dl o (preTick c o (publishTick (startTick o s)))
    (by rw [hbp]; exact hbx) (by rw [hbp]; exact hby) hpa hFL
  rw [phaseDispatch_default sq c dl o _ hgs2, hD]
  refine ⟨?_, ?_, ?_, ?_, ?_⟩
  · show (sentoutPhase c o (goalBranch (preTick c o (publishTick (startTick o s))))).score 0 =
      s.score 0 + 1
    rw [sentoutPhase_score, hG.1, hsc]
  · show (sentoutPhase c o (goalBranch (preTick c o (publishTick (startTick o s))))).score 1 =
      s.score 1
    rw [sentoutPhase_score, hG.2.1, hsc]
  · show (sentoutPhase c o (goalBranch (preTick c o (publishTick (startTick o s))))).ballOwnership =
      1
    rw [sentoutPhase_ballOwnership, hG.2.2.1]
  · show (sentoutPhase c o (goalBranch (preTick c o (publishTick (startTick o s))))).gameState =
      GS.kickoff
    rw [sentoutPhase_gameState, hG.2.2.2.1]
  · show (sentoutPhase c o (goalBranch (preTick c o (publishTick (startTick o s))))).resetReason =
      SCORE_RED_TEAM
    rw [sentoutPhase_resetReason, hG.2.2.2.2]

/-- The witness oracle keeps every object far from red robot 1's
formation slot. -/
theorem guardW : sentoutGuardFree cW oW 0 1 := by
  unfold sentoutGuardFree anyNearby
  refine Bool.or_eq_false_iff.mpr ⟨?_, ?_⟩
  · rw [decide_eq_false_iff_not]
    norm_num [oW, cW]
  · rw [List.any_eq_false]
    intro t ht
    rw [Bool.not_eq_true, List.any_eq_false]
    intro i hi
    dsimp only
    rw [Bool.not_eq_true, decide_eq_false_iff_not]
    fin_cases t <;> fin_cases i <;> norm_num [oW, cW]

/-- The witness ball position (the centre mark) is inside the field. -/
theorem ballInField_W : ballInField cW oW.ballPos = true := by
  norm_num [ballInField, oW, cW]

/-- C2 (corrected): the sent-out return check is a DEFAULT-phase step,
not an unconditional one.  On a quiet DEFAULT tick (no goal, ball in
field, penalty-area rule off, deadlock checking disabled) an aged
sent-out robot with a free formation slot is reactivated with a cleared
timer and teleported back to formation; in every other phase (KICKOFF,
GOALKICK, CORNERKICK, PENALTYKICK) the same robot's sent-out timer is
left untouched, so no return happens there. -/
theorem c2_sentout_return_default_only (sq : ℚ → ℚ) (c : Consts) (rep : Bool)
    (o : Oracle) (s : Sup) (t : Fin 2) (i : Fin 5)
    (htime : s.time < s.gameTime)
    (hia : (s.robots t i).active = false)
    (hst : (s.robots t i).sentoutTime ≠ 0)
    (hel : s.time - (s.robots t i).sentoutTime ≥ c.SENTOUT_DURATION_MS)
    (hgd : sentoutGuardFree c o t i) :
    (s.gameState = GS.stateDefault →
      ¬(|o.ballPos.1| > c.FIELD_LENGTH / 2 ∧ |o.ballPos.2| < c.GOAL_WIDTH / 2) →
      ballInField c o.ballPos = true →
      |o.ballPos2.1| < c.FIELD_LENGTH / 2 - c.PENALTY_AREA_DEPTH →
      ((runStep sq c false rep o s).robots t i).active = true ∧
        ((runStep sq c false rep o s).robots t i).sentoutTime = 0 ∧
        Eff.teleField t i ∈ (runStep sq c false rep o s).out) ∧
    (∀ dl : Bool, s.gameState ≠ GS.stateDefault →
      ((runStep sq c dl rep o s).robots t i).sentoutTime =
        (s.robots t i).sentoutTime) :=
  ⟨fun hgs hng hin hpa =>
    runStep_sentout_core sq c rep o s t i hgs htime hng hin hpa hia hst hel hgd,
   fun dl hgs => runStep_sentout_frozen sq c dl rep o s t i htime hgs hia⟩

theorem c2_witness :
    (((runStep sqW cW false false oW sWd).robots 0 1).active = true ∧
        ((runStep sqW cW false false oW sWd).robots 0 1).sentoutTime = 0 ∧
        Eff.teleField 0 1 ∈ (runStep sqW cW false false oW sWd).out) ∧
      ((runStep sqW cW true false oW sWk).robots 0 1).sentoutTime =
        (sWk.robots 0 1).sentoutTime := by
  constructor
  · exact (c2_sentout_return_default_only sqW cW false oW sWd 0 1 (by decide) (by decide)
      (by decide) (by decide) guardW).1 rfl (by norm_num [oW, cW]) ballInField_W
      (by norm_num [oW, cW])
  · exact (c2_sentout_return_default_only sqW cW false oW sWk 0 1 (by decide) (by decide)
      (by decide) (by decide) guardW).2 true (by decide)

/-- C2 as stated is false: in the KICKOFF phase of `sWk` the aged
sent-out red robot 1 is not reactivated (the return loop is inside the
DEFAULT branch only), so its sent-out timer survives the tick. -/
theorem c2_counterexample : ¬ ClaimC2 := by
  intro h
  have h0 := h sqW cW false false oW sWk 0 1 (by decide) (by decide) (by decide)
    (by decide) guardW
  have h1 := runStep_sentout_frozen sqW cW false false oW sWk 0 1 (by decide) (by decide)
    (by decide)
  rw [h0.2] at h1
  exact absurd h1 (by decide)

/-- C3 (corrected): a ball at `x = FIELD_LENGTH/2 + 1` with
`|y| < GOAL_WIDTH/2` is inside the goal mouth, so the DEFAULT branch
scores a goal for team red (whatever the recent-touch tallies say): red's
score goes up by one, ownership goes to team blue for the restart, the
phase becomes KICKOFF (not GOALKICK) and the reset reason is the
red-scored code (not the goal-kick one). -/
theorem c3_goal_line_scores_red (sq : ℚ → ℚ) (c : Consts) (dl rep : Bool) (o : Oracle)
    (s : Sup)
    (hFL : 0 < c.FIELD_LENGTH) (_hGW : 0 < c.GOAL_WIDTH)
    (hgs : s.gameState = GS.stateDefault)
    (htime : s.time < s.gameTime)
    (hbx : o.ballPos.1 = c.FIELD_LENGTH / 2 + 1)
    (hby : |o.ballPos.2| < c.GOAL_WIDTH / 2)
    (_htc : touchCount s 0 > touchCount s 1)
    (hpa : |o.ballPos2.1| < c.FIELD_LENGTH / 2 - c.PENALTY_AREA_DEPTH) :
    (runStep sq c dl rep o s).score 0 = s.score 0 + 1 ∧
      (runStep sq c dl rep o s).score 1 = s.score 1 ∧
      (runStep sq c dl rep o s).ballOwnership = 1 ∧
      (runStep sq c dl rep o s).gameState = GS.kickoff ∧
      (runStep sq c dl rep o s).resetReason = SCORE_RED_TEAM :=
  runStep_goal_core sq c dl rep o s hgs htime (by rw [hbx]; linarith) hby hpa
    (le_of_lt hFL)

theorem c3_witness :
    (runStep sqW cW false false oWg sWg).score 0 = sWg.score 0 + 1 ∧
      (runStep sqW cW false false oWg sWg).score 1 = sWg.score 1 ∧
      (runStep sqW cW false false oWg sWg).ballOwnership = 1 ∧
      (runStep sqW cW false false oWg sWg).gameState = GS.kickoff ∧
      (runStep sqW cW false false oWg sWg).resetReason = SCORE_RED_TEAM :=
  c3_goal_line_scores_red sqW cW false false oWg sWg (by norm_num [cW])
    (by norm_num [cW]) rfl (by decide) (by norm_num [oWg, oW, cW])
    (by norm_num [oWg, oW, cW]) (by decide) (by norm_num [oWg, oW, cW])

/-- C3 as stated is false: on the claim's own input the tick is a red
goal, so the phase restarts in KICKOFF, not GOALKICK. -/
theorem c3_counterexample : ¬ ClaimC3 := by
  intro h
  have h0 := h sqW cW false false oWg sWg (by norm_num [cW]) (by norm_num [cW]) rfl
    (by decide) (by norm_num [oWg, oW, cW]) (by norm_num [oWg, oW, cW]) (by decide)
    (by norm_num [oWg, oW, cW])
  have h1 := runStep_goal_core sqW cW false false oWg sWg rfl (by decide)
    (by norm_num [oWg, oW, cW]) (by norm_num [oWg, oW, cW]) (by norm_num [oWg, oW, cW])
    (by norm_num [cW])
  have h2 := h0.2.1
  rw [h1.2.2.2.1] at h2
  exact GS.noConfusion h2

end AIWC
